import Mathlib

/-!
# Zigbee coordinator: link-quality tracking and alarm state machine

Shallow embedding of `example_simple_application_coordinator_afzdo.c`.

* The module-scope variables of the C file are the fields of `Globals`.
* C arrays are lists; a read is `List.getD` and a write is `List.set`.
* `uint8_t` and `uint16_t` values are natural numbers, reduced with an explicit
  `% 256` or `% 65536` wherever the C code stores the result of an arithmetic
  operation.
* Console output and LED rendering have no effect on the variables modelled here
  and are left out.
-/

namespace Coordinator

/-! ## Data model -/

/-- STATES for state machine (`enum STATE`). -/
inductive STATE where
  | STATE_IDLE
  | STATE_MODULE_STARTUP
  | STATE_DISPLAY_NETWORK_INFORMATION
  deriving DecidableEq, Repr

/-- STATES for tracking algorithm (`enum TRACK_STATE`). -/
inductive TRACK_STATE where
  | ALL_ITEMS_CONNECTED
  | SUSPECTED_ITEM_LOSS
  | ITEM_LOST_ALARM
  | ITEM_LOST_SILENCED
  deriving DecidableEq, Repr

abbrev STATE_FLAG_MESSAGE_WAITING : Nat := 0x01
abbrev STATE_FLAG_BUTTON_PRESSED : Nat := 0x02
abbrev LQI_THRESHOLD : Nat := 0x50
abbrev LQI_NUM_SAMPLES : Nat := 6
abbrev NUM_DEVICES : Nat := 10
abbrev NWK_OFFLINE : Nat := 0
abbrev NWK_ONLINE : Nat := 1

/-- One entry of the device table (`struct router_device`). -/
structure router_device where
  track_state : TRACK_STATE
  MAC_address : List Nat
  LQI_running_average : List Nat
  LQI : Nat
  LQI_iter : Nat
  LQI_total : Nat
  LQI_average : Nat
  LQI_initialized : Nat
  deriving DecidableEq, Repr

/-- The module-scope variables of the C file that the tracking logic reads or writes. -/
structure Globals where
  state : STATE
  stateFlags : Nat
  current_router_index : Nat
  coordinator_on : Nat
  routers : List router_device
  alarm_sounding : Nat
  alarm_silenced : Nat
  zigbeeNetworkStatus : Nat
  deriving DecidableEq, Repr

/-- A zero-filled device record: what C static storage holds before `structInit` runs.
It is also the value that an out-of-range table read yields in this model. -/
def zeroDevice : router_device where
  track_state := TRACK_STATE.ALL_ITEMS_CONNECTED
  MAC_address := List.replicate 8 0
  LQI_running_average := List.replicate LQI_NUM_SAMPLES 0
  LQI := 0
  LQI_iter := 0
  LQI_total := 0
  LQI_average := 0
  LQI_initialized := 0

/-- The values of the module-scope variables at program start, from their C initialisers
(`state = STATE_MODULE_STARTUP`, `coordinator_on = 1`, everything else zero). -/
def staticGlobals : Globals where
  state := STATE.STATE_MODULE_STARTUP
  stateFlags := 0
  current_router_index := 0
  coordinator_on := 1
  routers := List.replicate NUM_DEVICES zeroDevice
  alarm_sounding := 0
  alarm_silenced := 0
  zigbeeNetworkStatus := NWK_OFFLINE

/-- Read `routers[i]`. -/
def Globals.dev (g : Globals) (i : Nat) : router_device :=
  g.routers.getD i zeroDevice

/-- Write `routers[i] = d`. -/
def Globals.setDev (g : Globals) (i : Nat) (d : router_device) : Globals :=
  { g with routers := g.routers.set i d }

/-! ## `structInit` -/

/-- Body of the outer loop of `structInit` for index `i`, applied to `routers[i]`.
The inner MAC loop writes `MAC_address[i]` (index `i`, not `j`) on each of its 8 rounds,
exactly as the source does. For `i` = 8 and 9 that index lies past the 8 bytes of the
array; `List.set` leaves the list as it is there. -/
def structInit_body (i : Nat) (d : router_device) : router_device :=
  let d := { d with LQI := 0 }
  let d := { d with LQI_average := 0 }
  let d := { d with LQI_initialized := 0 }
  let d := { d with LQI_iter := 0 }
  let d := { d with LQI_total := 0 }
  let d := (List.range 8).foldl
    (fun d _j => { d with MAC_address := d.MAC_address.set i 0 }) d
  let d := (List.range LQI_NUM_SAMPLES).foldl
    (fun d k => { d with LQI_running_average := d.LQI_running_average.set k 0 }) d
  { d with track_state := TRACK_STATE.ALL_ITEMS_CONNECTED }

/-- The function `structInit`: `for (i = 0; i < NUM_DEVICES; i++)` over the device table. -/
def structInit (g : Globals) : Globals :=
  (List.range NUM_DEVICES).foldl (fun g i => g.setDev i (structInit_body i (g.dev i))) g

/-- The state in which the main loop starts: `structInit` run on the static initial values. -/
def initState : Globals := structInit staticGlobals

/-! ## Button actions -/

/-- The function `processButtonPress`. -/
def processButtonPress (g : Globals) : Globals :=
  if g.alarm_sounding = 1 then { g with alarm_silenced := 1 } else g

/-- The function `processButtonHold`. -/
def processButtonHold (g : Globals) : Globals :=
  if g.coordinator_on = 0 then { g with coordinator_on := 1 } else { g with coordinator_on := 0 }

/-! ## `trackingStateMachine` -/

/-- Lines 410-423 of `trackingStateMachine`, on the record `routers[router_index]`:
cursor wrap, eviction, running total, average, cursor increment.
`LQI_total` is a `uint16_t`, `LQI_average` and `LQI_iter` are `uint8_t`. -/
def updateRunningAverage (d : router_device) : router_device :=
  let d := if d.LQI_iter = LQI_NUM_SAMPLES then
      { d with LQI_iter := 0, LQI_initialized := 1 }
    else d
  let oldest_LQI := d.LQI_running_average.getD d.LQI_iter 0
  let d := { d with LQI_running_average := d.LQI_running_average.set d.LQI_iter d.LQI }
  let d := if d.LQI_initialized = 1 then
      { d with LQI_total := (d.LQI_total + 65536 - oldest_LQI) % 65536 }
    else d
  let d := { d with LQI_total := (d.LQI_total + d.LQI) % 65536 }
  let d := { d with LQI_average := (d.LQI_total / LQI_NUM_SAMPLES) % 256 }
  { d with LQI_iter := (d.LQI_iter + 1) % 256 }

/-- The counting loop of the `ITEM_LOST_ALARM` case (lines 483-487): `NUM_DEVICES` rounds,
each of which tests `routers[router_index]`. -/
def devices_connected (router_index : Nat) (g : Globals) : Nat :=
  (List.range NUM_DEVICES).foldl
    (fun n _i =>
      if (g.dev router_index).track_state = TRACK_STATE.ALL_ITEMS_CONNECTED then n + 1 else n) 0

/-- The `switch` of `trackingStateMachine` (lines 442-500). The `items_connected` count of the
first case only feeds a `printf` and is left out. -/
def trackSwitch (router_index : Nat) (g : Globals) : Globals :=
  match (g.dev router_index).track_state with
  | TRACK_STATE.ALL_ITEMS_CONNECTED =>
    let g := { g with alarm_silenced := 0 }
    if (g.dev router_index).LQI_average < LQI_THRESHOLD
        ∧ (g.dev router_index).LQI_initialized = 1 then
      g.setDev router_index
        { g.dev router_index with track_state := TRACK_STATE.ITEM_LOST_ALARM }
    else g
  | TRACK_STATE.ITEM_LOST_ALARM =>
    let g := if g.alarm_sounding = 0 then { g with alarm_sounding := 1 } else g
    let g := if (g.dev router_index).LQI_average > LQI_THRESHOLD then
        g.setDev router_index
          { g.dev router_index with track_state := TRACK_STATE.ALL_ITEMS_CONNECTED }
      else g
    if devices_connected router_index g = NUM_DEVICES then
      { g with alarm_sounding := 0 }
    else g
  | _ => g

/-- The function `trackingStateMachine`. -/
def trackingStateMachine (router_index : Nat) (g : Globals) : Globals :=
  if (g.dev router_index).LQI ≠ 0 then
    trackSwitch router_index
      (g.setDev router_index (updateRunningAverage (g.dev router_index)))
  else g

/-- What the `switch` of `trackingStateMachine` does to the record `routers[router_index]`
itself (the assignments to `track_state` of lines 458-460 and 479-481). -/
def switchDevice (d : router_device) : router_device :=
  match d.track_state with
  | TRACK_STATE.ALL_ITEMS_CONNECTED =>
    if d.LQI_average < LQI_THRESHOLD ∧ d.LQI_initialized = 1 then
      { d with track_state := TRACK_STATE.ITEM_LOST_ALARM }
    else d
  | TRACK_STATE.ITEM_LOST_ALARM =>
    if d.LQI_average > LQI_THRESHOLD then
      { d with track_state := TRACK_STATE.ALL_ITEMS_CONNECTED }
    else d
  | _ => d

/-- What `trackingStateMachine router_index` does to the record `routers[router_index]`
itself; `dev_tracking_same` proves that this is the record the function leaves there. -/
def trackDevice (d : router_device) : router_device :=
  if d.LQI ≠ 0 then switchDevice (updateRunningAverage d) else d

/-! ## `parseMessages` -/

/-- What `getMessage` leaves in `zmBuf`, as `parseMessages` reads it through the header
macros (whose definitions are not part of this file):
`zmBuf[SRSP_LENGTH_FIELD]`, `IS_AF_INCOMING_MESSAGE()`,
`AF_INCOMING_MESSAGE_CLUSTER() == INFO_MESSAGE_CLUSTER`, `im.header.mac` and
`zmBuf[AF_INCOMING_MESSAGE_LQI_FIELD]`. -/
structure Message where
  length_field : Nat
  is_af_incoming : Bool
  is_info_cluster : Bool
  mac : List Nat
  lqi : Nat
  deriving DecidableEq, Repr

/-- The inner loop of the registry scan (lines 532-537): `match` starts at 1 and is cleared
by any differing byte, `j` running from 7 down to 0. -/
def macMatch (dev_mac msg_mac : List Nat) : Nat :=
  [7, 6, 5, 4, 3, 2, 1, 0].foldl
    (fun m j => if dev_mac.getD j 0 ≠ msg_mac.getD j 0 then 0 else m) 1

/-- One round of the registry scan for slot `k` (lines 532-541). -/
def scanSlot (m : Message) (g : Globals) (k : Nat) : Globals :=
  if macMatch (g.dev k).MAC_address m.mac = 1 then
    let g := { g with current_router_index := k }
    g.setDev g.current_router_index { g.dev g.current_router_index with LQI := m.lqi }
  else g

/-- The function `parseMessages`, for the message `m` delivered by `getMessage`. Only the
info-message branch writes variables of `Globals`; the other branches print. The closing
`zmBuf[SRSP_LENGTH_FIELD] = 0` clears the receive buffer of the module, which `getMessage`
fills again on the next call and which is not a field of `Globals`. -/
def parseMessages (m : Message) (g : Globals) : Globals :=
  if m.length_field > 0 ∧ m.is_af_incoming = true then
    if m.is_info_cluster = true then
      (List.range NUM_DEVICES).foldl (scanSlot m) g
    else g
  else g

/-! ## `stateMachine` -/

/-- The answers of the external collaborators during one pass of `stateMachine`. -/
structure Env where
  moduleHasMessageWaiting : Bool
  message : Message
  debounceButton : Bool
  debounceButtonHold : Bool
  startModule : List Bool
  deriving DecidableEq, Repr

/-- The `STATE_IDLE` case of `stateMachine` (lines 318-342). -/
def stateMachine_idle (e : Env) (g : Globals) : Globals :=
  let g :=
    if g.stateFlags &&& STATE_FLAG_MESSAGE_WAITING &&& g.coordinator_on ≠ 0 then
      let g := parseMessages e.message g
      let g := trackingStateMachine g.current_router_index g
      { g with stateFlags := g.stateFlags &&& (0xFFFF - STATE_FLAG_MESSAGE_WAITING) }
    else g
  if g.stateFlags &&& STATE_FLAG_BUTTON_PRESSED ≠ 0 then
    let g := if e.debounceButton = true then processButtonPress g else g
    let g := if e.debounceButtonHold = true then processButtonHold g else g
    { g with stateFlags := g.stateFlags &&& (0xFFFF - STATE_FLAG_BUTTON_PRESSED) }
  else g

/-- The retry loop of `STATE_MODULE_STARTUP`: the number of failed `startModule` calls before
the first success, or `none` when the listed results contain no success. -/
def startupRetries : List Bool → Option Nat
  | [] => none
  | true :: _ => some 0
  | false :: rest => (startupRetries rest).map (· + 1)

/-- The function `stateMachine`: one pass. The result is `none` when the start-up retry loop
does not end within the `startModule` results of the environment. -/
def stateMachine (e : Env) (g : Globals) : Option Globals :=
  let g :=
    if g.zigbeeNetworkStatus = NWK_ONLINE then
      if e.moduleHasMessageWaiting = true then
        { g with stateFlags := g.stateFlags ||| STATE_FLAG_MESSAGE_WAITING }
      else g
    else g
  match g.state with
  | STATE.STATE_IDLE => some (stateMachine_idle e g)
  | STATE.STATE_MODULE_STARTUP =>
    match startupRetries e.startModule with
    | none => none
    | some _ =>
      some { g with zigbeeNetworkStatus := NWK_ONLINE,
                    state := STATE.STATE_DISPLAY_NETWORK_INFORMATION }
  | STATE.STATE_DISPLAY_NETWORK_INFORMATION => some { g with state := STATE.STATE_IDLE }

/-! ## Reachable states -/

/-- The store `routers[k].LQI = lqi` of `parseMessages` (line 540) on its own. -/
def storeLQI (k lqi : Nat) (g : Globals) : Globals :=
  g.setDev k { g.dev k with LQI := lqi }

/-- States the main loop can be in, seen from the device table and the alarm flags:
the start state, closed under the assignment of an address to a slot (as `main` does for
slots 0 and 1), an LQI byte stored for a device, a `trackingStateMachine` call for a
device, and the two button actions. -/
inductive Reachable : Globals → Prop where
  | init : Reachable initState
  | mac (g : Globals) (k : Nat) (a : List Nat) :
      Reachable g → k < NUM_DEVICES → Reachable (g.setDev k { g.dev k with MAC_address := a })
  | lqi (g : Globals) (k v : Nat) :
      Reachable g → k < NUM_DEVICES → v ≤ 255 → Reachable (storeLQI k v g)
  | track (g : Globals) (k : Nat) :
      Reachable g → k < NUM_DEVICES → Reachable (trackingStateMachine k g)
  | press (g : Globals) : Reachable g → Reachable (processButtonPress g)
  | hold (g : Globals) : Reachable g → Reachable (processButtonHold g)

/-- One reported sample `e = (k, v)`: the LQI byte `v` is stored in `routers[k].LQI` and
`trackingStateMachine k` runs. -/
def report (e : Nat × Nat) (g : Globals) : Globals :=
  trackingStateMachine e.1 (storeLQI e.1 e.2 g)

/-- A sequence of reported samples, processed in order. -/
def runReports (evs : List (Nat × Nat)) (g : Globals) : Globals :=
  evs.foldl (fun g e => report e g) g

/-- The samples accepted for device `r` during `evs`: the non-zero bytes reported for `r`,
oldest first. -/
def accepted (r : Nat) (evs : List (Nat × Nat)) : List Nat :=
  (evs.filter (fun e => decide (e.1 = r ∧ e.2 ≠ 0))).map (fun e => e.2)

/-- One accepted sample at the level of a single record: store `s`, then track. -/
def feed (d : router_device) (s : Nat) : router_device :=
  trackDevice { d with LQI := s }

/-- The six most recent samples of `ss`, oldest first, with zeros in front while fewer than
six samples exist. -/
def lastSix (ss : List Nat) : List Nat :=
  (List.replicate 6 0 ++ ss).drop ss.length

/-! ## Invariants -/

/-- Invariant of one device record: buffer of six bytes, cursor at most 6, running total
equal to the buffer sum, and every slot from the cursor on still zero during warm-up. -/
structure DevInv (d : router_device) : Prop where
  len : d.LQI_running_average.length = 6
  lqi : d.LQI ≤ 255
  iter : d.LQI_iter ≤ 6
  bytes : ∀ x ∈ d.LQI_running_average, x ≤ 255
  total : d.LQI_total = d.LQI_running_average.sum
  warm : d.LQI_initialized = 1 ∨
    (d.LQI_initialized = 0 ∧
      d.LQI_running_average.drop d.LQI_iter = List.replicate (6 - d.LQI_iter) 0)

/-- Invariant of the whole table: ten records, each satisfying `DevInv`. -/
def TableInv (g : Globals) : Prop :=
  g.routers.length = NUM_DEVICES ∧ ∀ i, i < NUM_DEVICES → DevInv (g.dev i)

/-- State of one record after the accepted samples `ss`, starting from a zeroed record:
the buffer read from the write position on is `lastSix ss`, the cursor and the flag follow
the number of samples, total and average are those of `lastSix ss`. -/
structure FeedInv (ss : List Nat) (d : router_device) : Prop where
  len : d.LQI_running_average.length = 6
  rot : d.LQI_running_average.drop (ss.length % 6) ++
      d.LQI_running_average.take (ss.length % 6) = lastSix ss
  iter : (ss.length = 0 ∧ d.LQI_iter = 0) ∨
      (0 < ss.length ∧ d.LQI_iter = (ss.length - 1) % 6 + 1)
  init : (ss.length ≤ 6 ∧ d.LQI_initialized = 0) ∨ (6 < ss.length ∧ d.LQI_initialized = 1)
  total : d.LQI_total = (lastSix ss).sum
  avg : d.LQI_average = (lastSix ss).sum / 6

/-- A record with its `LQI` field blanked: everything `trackingStateMachine` keeps of a
device between two samples. -/
def eraseLQI (d : router_device) : router_device := { d with LQI := 0 }

/-- A run of reports: seven samples for device 2, with a report of device 5 in between. -/
def sampleRun : List (Nat × Nat) :=
  [(2, 10), (2, 20), (5, 99), (2, 30), (2, 40), (2, 50), (2, 60), (2, 70)]

/-- Six samples 0x10 for device 0, then the seventh stored and waiting to be tracked. -/
def lowSeventh : Globals :=
  storeLQI 0 0x10 (runReports (List.replicate 6 (0, 0x10)) initState)

/-- Devices 0 and 1 both driven to LOST by low samples, the alarm sounding, and device 0
one good sample into its recovery. -/
def twoLost : Globals :=
  runReports
    (List.replicate 8 (0, 0x10) ++ List.replicate 7 (1, 0x10) ++ [(0, 0xFF)]) initState

/-- The registry as `main` provisions it after `structInit` (lines 159-175): the MAC
addresses of slots 0 and 1 are assigned, slots 2 to 9 keep the all-zero address. -/
def mainInit : Globals :=
  let g := initState
  let g := g.setDev 0
    { g.dev 0 with MAC_address := [0x5E, 0xD2, 0x5D, 0x02, 0x00, 0x4B, 0x12, 0x00] }
  g.setDev 1 { g.dev 1 with MAC_address := [0xD3, 0xD3, 0x5D, 0x02, 0x00, 0x4B, 0x12, 0x00] }

/-- Successive passes of `stateMachine`, one environment per pass. -/
def runPasses (es : List Env) (g : Globals) : Option Globals :=
  es.foldlM (fun g e => stateMachine e g) g

/-- An info message from the device provisioned in slot 0, received with LQI 0x90. -/
def msgSlot0 : Message where
  length_field := 30
  is_af_incoming := true
  is_info_cluster := true
  mac := [0x5E, 0xD2, 0x5D, 0x02, 0x00, 0x4B, 0x12, 0x00]
  lqi := 0x90

/-- An info message from a sender that is in no slot of the registry. -/
def msgStranger : Message where
  length_field := 30
  is_af_incoming := true
  is_info_cluster := true
  mac := [0x11, 0x11, 0x11, 0x11, 0x11, 0x11, 0x11, 0x11]
  lqi := 0x20

/-- A message that is not an incoming info message (for instance a device announce). -/
def msgOther : Message where
  length_field := 12
  is_af_incoming := false
  is_info_cluster := false
  mac := []
  lqi := 0

/-- A pass during which the module reports a waiting message `m` and no button is down. -/
def envMessage (m : Message) : Env where
  moduleHasMessageWaiting := true
  message := m
  debounceButton := false
  debounceButtonHold := false
  startModule := [true]

/-- A pass with no message and no button event, `startModule` succeeding at once. -/
def envQuiet : Env where
  moduleHasMessageWaiting := false
  message := msgOther
  debounceButton := false
  debounceButtonHold := false
  startModule := [true]

/-- Start-up, network display, then one sample 0x90 received from the device of slot 0. -/
def oneSampleRun : List Env := [envQuiet, envQuiet, envMessage msgSlot0]

/-- Slot `k` of the registry holds the sender address of `m`: the 8 bytes agree. -/
def slotMatches (m : Message) (g : Globals) (k : Nat) : Prop :=
  ∀ j, j < 8 → (g.dev k).MAC_address.getD j 0 = m.mac.getD j 0

/-- The registry scan of `parseMessages` stopped after the slots below `n`. -/
def scanUpTo (m : Message) (g : Globals) (n : Nat) : Globals :=
  (List.range n).foldl (scanSlot m) g

/-- An info message whose sender address is all zero, the address that slots 2 to 9 of
`mainInit` hold. -/
def msgZeroMac : Message where
  length_field := 30
  is_af_incoming := true
  is_info_cluster := true
  mac := [0, 0, 0, 0, 0, 0, 0, 0]
  lqi := 0x77

/-- Invariant of the alarm flag: a sounding alarm has a device in `ITEM_LOST_ALARM`. -/
def AlarmInv (g : Globals) : Prop :=
  g.alarm_sounding = 1 →
    ∃ i, i < NUM_DEVICES ∧ (g.dev i).track_state = TRACK_STATE.ITEM_LOST_ALARM

/-- Device 0 driven to LOST until the alarm sounds (eight samples 0x10), then the button
pressed: the alarm is sounding and silenced, device 1 is CONNECTED. -/
def silencedAlarm : Globals :=
  processButtonPress (runReports (List.replicate 8 (0, 0x10)) initState)

/-! ## Views of one `stateMachine` pass -/

abbrev MODULE_START_DELAY_IF_FAIL_MS : Nat := 5000

/-- The retry loop of `STATE_MODULE_STARTUP` (lines 359-363), seen from its waits: every
failed `startModule` call is followed by one `delayMs(MODULE_START_DELAY_IF_FAIL_MS)` and
the next call; the first success ends the loop. The result lists the arguments of the
`delayMs` calls in order, `none` when the listed results contain no success. -/
def startupLoop : List Bool → Option (List Nat)
  | [] => none
  | true :: _ => some []
  | false :: rest => (startupLoop rest).map (MODULE_START_DELAY_IF_FAIL_MS :: ·)

/-- The `delayMs` calls that the body of `stateMachine` makes during one pass: those of the
start-up retry loop. The idle and the display case call `delayMs` nowhere themselves (the
waits of the debounce routines are inside those routines). -/
def stateMachine_delays (e : Env) (g : Globals) : Option (List Nat) :=
  match g.state with
  | STATE.STATE_MODULE_STARTUP => startupLoop e.startModule
  | _ => some []

/-- Lines 310-314 of `stateMachine`: the message-waiting flag is raised when the network
is online and the module signals a message. -/
def pollModule (e : Env) (g : Globals) : Globals :=
  if g.zigbeeNetworkStatus = NWK_ONLINE then
    if e.moduleHasMessageWaiting = true then
      { g with stateFlags := g.stateFlags ||| STATE_FLAG_MESSAGE_WAITING }
    else g
  else g

/-- Lines 322-324 of `stateMachine`: the dispatch of a waiting message. -/
def dispatchMessage (e : Env) (g : Globals) : Globals :=
  let g := parseMessages e.message g
  let g := trackingStateMachine g.current_router_index g
  { g with stateFlags := g.stateFlags &&& (0xFFFF - STATE_FLAG_MESSAGE_WAITING) }

/-- Lines 327-338 of `stateMachine`: the handling of a pending button event. -/
def handleButtonEvent (e : Env) (g : Globals) : Globals :=
  if g.stateFlags &&& STATE_FLAG_BUTTON_PRESSED ≠ 0 then
    let g := if e.debounceButton = true then processButtonPress g else g
    let g := if e.debounceButtonHold = true then processButtonHold g else g
    { g with stateFlags := g.stateFlags &&& (0xFFFF - STATE_FLAG_BUTTON_PRESSED) }
  else g

/-- The button interrupt routine `handleButtonPress`: it raises the button flag. -/
def handleButtonPress (g : Globals) : Globals :=
  { g with stateFlags := g.stateFlags ||| STATE_FLAG_BUTTON_PRESSED }

/-- States of the running program: the state in which `main` enters its loop, closed under
passes of `stateMachine` (any answers of the collaborators), the button interrupt, and
the two button actions. -/
inductive MainReachable : Globals → Prop where
  | init : MainReachable mainInit
  | pass (e : Env) (g g1 : Globals) :
      MainReachable g → stateMachine e g = some g1 → MainReachable g1
  | isr (g : Globals) : MainReachable g → MainReachable (handleButtonPress g)
  | press (g : Globals) : MainReachable g → MainReachable (processButtonPress g)
  | hold (g : Globals) : MainReachable g → MainReachable (processButtonHold g)

/-- A pass during which `startModule` fails three times and then succeeds. -/
def envThreeFailures : Env where
  moduleHasMessageWaiting := false
  message := msgOther
  debounceButton := false
  debounceButtonHold := false
  startModule := [false, false, false, true]

/-- The state `silencedAlarm` one good sample later, with the second good sample 0xFF of
device 0 stored and waiting to be tracked: device 0 is still LOST, the alarm is sounding
and silenced. -/
def recovering : Globals :=
  storeLQI 0 0xFF (report (0, 0xFF) silencedAlarm)

/-- The scenario of six samples 0x10 for device `r`. -/
def sixLow (r : Nat) : List (Nat × Nat) := List.replicate 6 (r, 0x10)

/-- The scenario of six samples 0x10 followed by six samples 0x90 for device `r`. -/
def sixLowSixHigh (r : Nat) : List (Nat × Nat) :=
  List.replicate 6 (r, 0x10) ++ List.replicate 6 (r, 0x90)

/-- Invariant of `track_state`: only the two states that the `switch` handles occur, and a
record whose `LQI_initialized` is not 1 is in `ALL_ITEMS_CONNECTED`. -/
def TrackInv (d : router_device) : Prop :=
  (d.track_state = TRACK_STATE.ALL_ITEMS_CONNECTED ∨
      d.track_state = TRACK_STATE.ITEM_LOST_ALARM) ∧
    (d.LQI_initialized ≠ 1 → d.track_state = TRACK_STATE.ALL_ITEMS_CONNECTED)

/-- A warm-up run: three samples for device 2, with a report of device 5 in between. -/
def warmRun : List (Nat × Nat) := [(2, 10), (2, 20), (5, 99), (2, 30)]

/-- The state after start-up and network display: idle, network online. -/
def idleOnline : Globals :=
  { mainInit with state := STATE.STATE_IDLE, zigbeeNetworkStatus := NWK_ONLINE }

/-- The state `idleOnline` after a long button press has switched monitoring off. -/
def monitoringOff : Globals := processButtonHold idleOnline

/-! ## Array indices and arithmetic of the buffer update -/

/-- The index with which lines 415-416 of `trackingStateMachine` read and write
`LQI_running_average`: `LQI_iter` as the wrap of lines 410-413 leaves it. -/
def bufferIndex (d : router_device) : Nat :=
  if d.LQI_iter = LQI_NUM_SAMPLES then 0 else d.LQI_iter

/-- The byte that line 415 reads from the buffer (`oldest_LQI`). -/
def evicted (d : router_device) : Nat :=
  d.LQI_running_average.getD (bufferIndex d) 0

/-- The indices of all accesses to `LQI_running_average` during one call of
`trackingStateMachine`, in order: the read of line 415, the write of line 416, and the reads
of the printing loop (lines 434-437, `j` from 0 to `LQI_NUM_SAMPLES - 1` for each of the
`NUM_DEVICES` records). A call that finds `LQI == 0` touches the buffer nowhere. -/
def bufferAccesses (router_index : Nat) (g : Globals) : List Nat :=
  if (g.dev router_index).LQI ≠ 0 then
    [bufferIndex (g.dev router_index), bufferIndex (g.dev router_index)] ++
      ((List.range NUM_DEVICES).map (fun _i => List.range LQI_NUM_SAMPLES)).flatten
  else []

/-- Lines 410-423 of `trackingStateMachine` in plain natural-number arithmetic: the same
statements as `updateRunningAverage`, without any reduction modulo 2^16 or 2^8. -/
def updateRunningAverage_exact (d : router_device) : router_device :=
  let d := if d.LQI_iter = LQI_NUM_SAMPLES then
      { d with LQI_iter := 0, LQI_initialized := 1 }
    else d
  let oldest_LQI := d.LQI_running_average.getD d.LQI_iter 0
  let d := { d with LQI_running_average := d.LQI_running_average.set d.LQI_iter d.LQI }
  let d := if d.LQI_initialized = 1 then
      { d with LQI_total := d.LQI_total - oldest_LQI }
    else d
  let d := { d with LQI_total := d.LQI_total + d.LQI }
  let d := { d with LQI_average := d.LQI_total / LQI_NUM_SAMPLES }
  { d with LQI_iter := d.LQI_iter + 1 }

/-! ## The stores of `structInit` -/

/-- A store of `structInit` into the device table: into a scalar field of `routers[dev]`,
into `routers[dev].MAC_address[idx]`, or into `routers[dev].LQI_running_average[idx]`. -/
inductive Store where
  | scalar (dev : Nat)
  | mac (dev idx : Nat)
  | buffer (dev idx : Nat)
  deriving DecidableEq, Repr

/-- A store is within bounds: the device index below `NUM_DEVICES`, a `MAC_address` index
below 8, an `LQI_running_average` index below `LQI_NUM_SAMPLES`. -/
def Store.inBounds : Store → Bool
  | Store.scalar dev => decide (dev < NUM_DEVICES)
  | Store.mac dev idx => decide (dev < NUM_DEVICES ∧ idx < 8)
  | Store.buffer dev idx => decide (dev < NUM_DEVICES ∧ idx < LQI_NUM_SAMPLES)

/-- The stores of one round `i` of the outer loop of `structInit`, in program order: five
scalar fields, the eight rounds of the MAC loop (each writing `MAC_address[i]`), the six
rounds of the buffer loop, and `track_state`. -/
def structInit_body_stores (i : Nat) : List Store :=
  [Store.scalar i, Store.scalar i, Store.scalar i, Store.scalar i, Store.scalar i] ++
    (List.range 8).map (fun _j => Store.mac i i) ++
    (List.range LQI_NUM_SAMPLES).map (fun k => Store.buffer i k) ++
    [Store.scalar i]

/-- All stores of `structInit`, in program order. -/
def structInit_stores : List Store :=
  ((List.range NUM_DEVICES).map structInit_body_stores).flatten

/-! ## Table access lemmas -/

theorem dev_setDev_same (g : Globals) (i : Nat) (d : router_device)
    (h : i < g.routers.length) : (g.setDev i d).dev i = d := by
  simp [Globals.dev, Globals.setDev, List.getD_eq_getElem?_getD, List.getElem?_set, h]

theorem dev_setDev_ne (g : Globals) (i j : Nat) (d : router_device)
    (h : i ≠ j) : (g.setDev i d).dev j = g.dev j := by
  simp [Globals.dev, Globals.setDev, List.getD_eq_getElem?_getD, List.getElem?_set, h]

theorem length_setDev (g : Globals) (i : Nat) (d : router_device) :
    (g.setDev i d).routers.length = g.routers.length := by
  simp [Globals.setDev]

theorem list_len6 {l : List Nat} (h : l.length = 6) :
    ∃ a b c d e f, l = [a, b, c, d, e, f] := by
  match l, h with
  | [a, b, c, d, e, f], _ => exact ⟨a, b, c, d, e, f, rfl⟩

theorem devices_connected_eq (r : Nat) (g : Globals) :
    devices_connected r g =
      if (g.dev r).track_state = TRACK_STATE.ALL_ITEMS_CONNECTED then NUM_DEVICES else 0 := by
  unfold devices_connected
  by_cases h : (g.dev r).track_state = TRACK_STATE.ALL_ITEMS_CONNECTED
  · simp only [h, if_true]; rfl
  · simp only [h, if_false]; rfl

/-! ## Effect of one tracking step on the table -/

@[simp] theorem dev_with_silenced (g : Globals) (v i : Nat) :
    ({ g with alarm_silenced := v } : Globals).dev i = g.dev i := rfl

@[simp] theorem dev_with_sounding (g : Globals) (v i : Nat) :
    ({ g with alarm_sounding := v } : Globals).dev i = g.dev i := rfl

@[simp] theorem length_with_silenced (g : Globals) (v : Nat) :
    ({ g with alarm_silenced := v } : Globals).routers.length = g.routers.length := rfl

@[simp] theorem length_with_sounding (g : Globals) (v : Nat) :
    ({ g with alarm_sounding := v } : Globals).routers.length = g.routers.length := rfl

theorem dev_trackSwitch_same (r : Nat) (g : Globals) (h : r < g.routers.length) :
    (trackSwitch r g).dev r = switchDevice (g.dev r) := by
  unfold trackSwitch switchDevice
  cases hts : (g.dev r).track_state
  · simp only [dev_with_silenced]
    split_ifs
    · rw [dev_setDev_same _ _ _ (by simpa using h)]
    · rfl
  · rfl
  · simp only [devices_connected_eq]
    by_cases hs : g.alarm_sounding = 0 <;> by_cases ha : (g.dev r).LQI_average > LQI_THRESHOLD <;>
      simp [hs, ha, dev_setDev_same, h, hts]
  · rfl

theorem dev_trackSwitch_ne (r j : Nat) (g : Globals) (h : r ≠ j) :
    (trackSwitch r g).dev j = g.dev j := by
  unfold trackSwitch
  cases hts : (g.dev r).track_state
  · simp only [dev_with_silenced]
    split_ifs
    · rw [dev_setDev_ne _ _ _ _ h]; rfl
    · rfl
  · rfl
  · simp only [devices_connected_eq]
    by_cases hs : g.alarm_sounding = 0 <;> by_cases ha : (g.dev r).LQI_average > LQI_THRESHOLD <;>
      simp [hs, ha, dev_setDev_ne, h, hts] <;> split_ifs <;> simp [dev_setDev_ne, h]
  · rfl

theorem length_trackSwitch (r : Nat) (g : Globals) :
    (trackSwitch r g).routers.length = g.routers.length := by
  unfold trackSwitch
  cases hts : (g.dev r).track_state
  · simp only [dev_with_silenced]
    split_ifs
    · rw [length_setDev]
    · rfl
  · rfl
  · simp only [devices_connected_eq]
    by_cases hs : g.alarm_sounding = 0 <;> by_cases ha : (g.dev r).LQI_average > LQI_THRESHOLD <;>
      simp [hs, ha, length_setDev] <;> split_ifs <;> simp [length_setDev]
  · rfl

theorem dev_tracking_same (r : Nat) (g : Globals) (h : r < g.routers.length) :
    (trackingStateMachine r g).dev r = trackDevice (g.dev r) := by
  unfold trackingStateMachine trackDevice
  split_ifs
  · rw [dev_trackSwitch_same _ _ (by rw [length_setDev]; exact h), dev_setDev_same _ _ _ h]
  · rfl

theorem dev_tracking_ne (r j : Nat) (g : Globals) (h : r ≠ j) :
    (trackingStateMachine r g).dev j = g.dev j := by
  unfold trackingStateMachine
  split_ifs
  · rw [dev_trackSwitch_ne _ _ _ h, dev_setDev_ne _ _ _ _ h]
  · rfl

theorem length_tracking (r : Nat) (g : Globals) :
    (trackingStateMachine r g).routers.length = g.routers.length := by
  unfold trackingStateMachine
  split_ifs
  · rw [length_trackSwitch, length_setDev]
  · rfl

/-! ## The ring-buffer invariant -/

theorem updateRunningAverage_inv (d : router_device) (h : DevInv d) :
    DevInv (updateRunningAverage d) := by
  obtain ⟨ts, mac, buf, lqi, iter, tot, avg, ini⟩ := d
  obtain ⟨hlen, hlqi, hiter, hbytes, htotal, hwarm⟩ := h
  simp only at hlen hlqi hiter hbytes htotal hwarm
  obtain ⟨a, b, c, d, e, f, rfl⟩ := list_len6 hlen
  simp only [List.mem_cons, List.mem_singleton, forall_eq_or_imp, forall_eq,
    List.not_mem_nil] at hbytes
  subst htotal
  rcases hwarm with hw | ⟨hw, hz⟩
  · subst hw
    interval_cases iter <;>
      refine ⟨?_, ?_, ?_, ?_, ?_, ?_⟩ <;>
      simp [updateRunningAverage] <;> omega
  · subst hw
    interval_cases iter <;> simp at hz <;>
      refine ⟨?_, ?_, ?_, ?_, ?_, ?_⟩ <;>
      simp [updateRunningAverage, hz] <;> omega

theorem switchDevice_inv (d : router_device) (h : DevInv d) : DevInv (switchDevice d) := by
  obtain ⟨h1, h2, h3, h4, h5, h6⟩ := h
  unfold switchDevice
  split
  · split_ifs
    · exact ⟨h1, h2, h3, h4, h5, h6⟩
    · exact ⟨h1, h2, h3, h4, h5, h6⟩
  · split_ifs
    · exact ⟨h1, h2, h3, h4, h5, h6⟩
    · exact ⟨h1, h2, h3, h4, h5, h6⟩
  · exact ⟨h1, h2, h3, h4, h5, h6⟩

theorem trackDevice_inv (d : router_device) (h : DevInv d) : DevInv (trackDevice d) := by
  unfold trackDevice
  split_ifs
  · exact switchDevice_inv _ (updateRunningAverage_inv _ h)
  · exact h

theorem zeroDevice_inv : DevInv zeroDevice := by
  refine ⟨rfl, by decide, by decide, ?_, rfl, Or.inr ⟨rfl, rfl⟩⟩
  intro x hx
  simp [zeroDevice] at hx
  omega

theorem initState_eq : initState = staticGlobals := by decide

theorem staticGlobals_dev (i : Nat) : staticGlobals.dev i = zeroDevice := by
  simp only [Globals.dev, staticGlobals, List.getD_eq_getElem?_getD, List.getElem?_replicate]
  split_ifs <;> rfl

theorem reachable_tableInv (g : Globals) (h : Reachable g) : TableInv g := by
  induction h with
  | init =>
    refine ⟨by rw [initState_eq]; rfl, fun i _ => ?_⟩
    rw [initState_eq, staticGlobals_dev]
    exact zeroDevice_inv
  | mac g k a _ hk ih =>
    obtain ⟨hl, hd⟩ := ih
    refine ⟨by rw [length_setDev]; exact hl, fun i hi => ?_⟩
    by_cases hki : k = i
    · subst hki
      rw [dev_setDev_same _ _ _ (by rw [hl]; exact hk)]
      obtain ⟨h1, h2, h3, h4, h5, h6⟩ := hd k hk
      exact ⟨h1, h2, h3, h4, h5, h6⟩
    · rw [dev_setDev_ne _ _ _ _ hki]
      exact hd i hi
  | lqi g k v _ hk hv ih =>
    obtain ⟨hl, hd⟩ := ih
    refine ⟨by rw [storeLQI, length_setDev]; exact hl, fun i hi => ?_⟩
    by_cases hki : k = i
    · subst hki
      rw [storeLQI, dev_setDev_same _ _ _ (by rw [hl]; exact hk)]
      obtain ⟨h1, _, h3, h4, h5, h6⟩ := hd k hk
      exact ⟨h1, hv, h3, h4, h5, h6⟩
    · rw [storeLQI, dev_setDev_ne _ _ _ _ hki]
      exact hd i hi
  | track g k _ hk ih =>
    obtain ⟨hl, hd⟩ := ih
    refine ⟨by rw [length_tracking]; exact hl, fun i hi => ?_⟩
    by_cases hki : k = i
    · subst hki
      rw [dev_tracking_same _ _ (by rw [hl]; exact hk)]
      exact trackDevice_inv _ (hd k hk)
    · rw [dev_tracking_ne _ _ _ hki]
      exact hd i hi
  | press g _ ih =>
    unfold processButtonPress
    split_ifs
    · exact ih
    · exact ih
  | hold g _ ih =>
    unfold processButtonHold
    split_ifs
    · exact ih
    · exact ih

/-! ## The window of the six most recent samples -/

theorem lastSix_length (ss : List Nat) : (lastSix ss).length = 6 := by
  simp only [lastSix, List.length_drop, List.length_append, List.length_replicate]
  omega

theorem lastSix_snoc (ss : List Nat) (s : Nat) :
    lastSix (ss ++ [s]) = (lastSix ss).drop 1 ++ [s] := by
  unfold lastSix
  rw [← List.append_assoc, List.length_append, List.length_singleton,
    List.drop_append_of_le_length (by simp), List.drop_drop]

theorem lastSix_warm (ss : List Nat) (h : ss.length ≤ 6) :
    lastSix ss = List.replicate (6 - ss.length) 0 ++ ss := by
  unfold lastSix
  rw [List.drop_append_of_le_length (by simpa using h), List.drop_replicate]

theorem lastSix_full (ss : List Nat) (h : 6 ≤ ss.length) :
    lastSix ss = ss.drop (ss.length - 6) := by
  unfold lastSix
  rw [List.drop_append_eq_append_drop]
  simp [h]

theorem lastSix_bytes (ss : List Nat) (h : ∀ x ∈ ss, x ≤ 255) :
    ∀ x ∈ lastSix ss, x ≤ 255 := by
  intro x hx
  unfold lastSix at hx
  have hx2 := List.mem_of_mem_drop hx
  rcases List.mem_append.mp hx2 with h1 | h1
  · rw [List.mem_replicate] at h1
    omega
  · exact h x h1

theorem lastSix_head_warm (ss : List Nat) (w0 : Nat) (ws : List Nat)
    (hw : lastSix ss = w0 :: ws) (h : ss.length < 6) : w0 = 0 := by
  obtain ⟨m, hm⟩ : ∃ m, 6 - ss.length = m + 1 := ⟨5 - ss.length, by omega⟩
  rw [lastSix_warm ss (by omega), hm, List.replicate_succ, List.cons_append] at hw
  exact (List.cons.inj hw).1.symm

set_option maxHeartbeats 1600000 in
theorem updateRunningAverage_feed (ss : List Nat) (d : router_device) (s : Nat)
    (h : FeedInv ss d) (hb : ∀ x ∈ ss, x ≤ 255) (hs : s ≤ 255) :
    FeedInv (ss ++ [s]) (updateRunningAverage { d with LQI := s }) := by
  obtain ⟨ts, mac, buf, lqi, iter, tot, avg, ini⟩ := d
  obtain ⟨hlen, hrot, hiter, hinit, htotal, havg⟩ := h
  simp only at hlen hrot hiter hinit htotal havg
  have hsn := lastSix_snoc ss s
  have hby := lastSix_bytes ss hb
  obtain ⟨a, b, c, d, e, f, rfl⟩ := list_len6 hlen
  obtain ⟨w0, w1, w2, w3, w4, w5, hw⟩ := list_len6 (lastSix_length ss)
  have hw0 := lastSix_head_warm ss _ _ hw
  rw [hw] at hrot hsn hby htotal havg
  simp only [List.mem_cons, List.mem_singleton, forall_eq_or_imp, forall_eq,
    List.not_mem_nil] at hby
  have hlen2 : (ss ++ [s]).length = ss.length + 1 := by simp
  simp only [List.sum_cons, List.sum_nil, add_zero] at htotal havg
  subst htotal havg
  generalize ss.length = n at hrot hiter hinit hw0 hlen2
  obtain ⟨c, hc⟩ : ∃ c, n % 6 = c := ⟨_, rfl⟩
  have hc6 : c < 6 := by omega
  have hmod : (n + 1) % 6 = (c + 1) % 6 := by omega
  have hit : (n = 0 ∧ iter = 0) ∨ (0 < n ∧ c = 0 ∧ iter = 6) ∨
      (0 < n ∧ 0 < c ∧ iter = c) := by
    omega
  have hn1 : (n + 1 - 1) % 6 + 1 = c + 1 := by omega
  clear hiter
  interval_cases c <;> rw [hc] at hrot <;>
    simp only [List.drop, List.take, List.cons_append, List.nil_append, List.cons.injEq,
      and_true, List.append_nil] at hrot <;>
    obtain ⟨rfl, rfl, rfl, rfl, rfl, rfl⟩ := hrot <;>
    rcases hit with ⟨hn0, rfl⟩ | ⟨hn0, hcc, rfl⟩ | ⟨hn0, hcc, rfl⟩ <;>
    rcases hinit with ⟨hle, rfl⟩ | ⟨hle, rfl⟩ <;>
    first
    | omega
    | (refine ⟨?_, ?_, ?_, ?_, ?_, ?_⟩ <;>
        simp [updateRunningAverage, LQI_NUM_SAMPLES, hlen2, hmod, hn1, hsn] <;> omega)

theorem switchDevice_feed (ss : List Nat) (d : router_device) (h : FeedInv ss d) :
    FeedInv ss (switchDevice d) := by
  obtain ⟨h1, h2, h3, h4, h5, h6⟩ := h
  unfold switchDevice
  split
  · split_ifs
    · exact ⟨h1, h2, h3, h4, h5, h6⟩
    · exact ⟨h1, h2, h3, h4, h5, h6⟩
  · split_ifs
    · exact ⟨h1, h2, h3, h4, h5, h6⟩
    · exact ⟨h1, h2, h3, h4, h5, h6⟩
  · exact ⟨h1, h2, h3, h4, h5, h6⟩

theorem feed_eq (d : router_device) (s : Nat) (hs : s ≠ 0) :
    feed d s = switchDevice (updateRunningAverage { d with LQI := s }) := by
  simp [feed, trackDevice, hs]

theorem feed_zero (d : router_device) : feed d 0 = eraseLQI d := by
  simp [feed, trackDevice, eraseLQI]

theorem feed_eraseLQI (d : router_device) (s : Nat) : feed (eraseLQI d) s = feed d s := rfl

theorem feedInv_zero : FeedInv [] zeroDevice := by
  refine ⟨rfl, ?_, Or.inl ⟨rfl, rfl⟩, Or.inl ⟨by simp, rfl⟩, ?_, ?_⟩ <;> decide

theorem feedInv_foldl (ss : List Nat) (hb : ∀ x ∈ ss, x ≠ 0 ∧ x ≤ 255) :
    FeedInv ss (ss.foldl feed zeroDevice) := by
  induction ss using List.reverseRecOn with
  | nil => exact feedInv_zero
  | append_singleton l s ih =>
    have hl : ∀ x ∈ l, x ≠ 0 ∧ x ≤ 255 := fun x hx => hb x (List.mem_append_left _ hx)
    have hs : s ≠ 0 ∧ s ≤ 255 := hb s (by simp)
    rw [List.foldl_append, List.foldl_cons, List.foldl_nil, feed_eq _ _ hs.1]
    exact switchDevice_feed _ _
      (updateRunningAverage_feed l _ s (ih hl) (fun x hx => (hl x hx).2) hs.2)

/-! ## A run of reports, seen from one device -/

theorem report_dev_same (r v : Nat) (g : Globals) (h : r < g.routers.length) :
    (report (r, v) g).dev r = feed (g.dev r) v := by
  unfold report feed storeLQI
  rw [dev_tracking_same _ _ (by rw [length_setDev]; exact h), dev_setDev_same _ _ _ h]

theorem report_dev_ne (e : Nat × Nat) (r : Nat) (g : Globals) (h : e.1 ≠ r) :
    (report e g).dev r = g.dev r := by
  unfold report storeLQI
  rw [dev_tracking_ne _ _ _ h, dev_setDev_ne _ _ _ _ h]

theorem length_report (e : Nat × Nat) (g : Globals) :
    (report e g).routers.length = g.routers.length := by
  unfold report storeLQI
  rw [length_tracking, length_setDev]

theorem accepted_bytes (r : Nat) (evs : List (Nat × Nat))
    (hev : ∀ e ∈ evs, e.1 < NUM_DEVICES ∧ e.2 ≤ 255) :
    ∀ x ∈ accepted r evs, x ≠ 0 ∧ x ≤ 255 := by
  intro x hx
  simp only [accepted, List.mem_map, List.mem_filter, decide_eq_true_eq] at hx
  obtain ⟨e, ⟨he, _, hne⟩, rfl⟩ := hx
  exact ⟨hne, (hev e he).2⟩

theorem runReports_dev (r : Nat) (evs : List (Nat × Nat)) (g : Globals) (d0 : router_device)
    (hr : r < g.routers.length) (h0 : eraseLQI (g.dev r) = eraseLQI d0) :
    eraseLQI ((runReports evs g).dev r) = eraseLQI ((accepted r evs).foldl feed d0) := by
  induction evs generalizing g d0 with
  | nil => exact h0
  | cons e rest ih =>
    obtain ⟨k, v⟩ := e
    have hlen : r < (report (k, v) g).routers.length := by rw [length_report]; exact hr
    show eraseLQI ((runReports rest (report (k, v) g)).dev r) = _
    by_cases hk : k = r
    · subst hk
      by_cases hv : v = 0
      · subst hv
        have hacc : accepted k ((k, 0) :: rest) = accepted k rest := by simp [accepted]
        rw [hacc]
        refine ih _ d0 hlen ?_
        rw [report_dev_same _ _ _ hr, feed_zero, ← h0]
        rfl
      · have hacc : accepted k ((k, v) :: rest) = v :: accepted k rest := by
          simp [accepted, hv]
        rw [hacc, List.foldl_cons]
        refine ih _ (feed d0 v) hlen ?_
        rw [report_dev_same _ _ _ hr, ← feed_eraseLQI (g.dev k), h0, feed_eraseLQI]
    · have hacc : accepted r ((k, v) :: rest) = accepted r rest := by simp [accepted, hk]
      rw [hacc]
      refine ih _ d0 hlen ?_
      rw [report_dev_ne _ _ _ hk]
      exact h0

theorem initState_dev (i : Nat) : initState.dev i = zeroDevice := by
  rw [initState_eq, staticGlobals_dev]

theorem initState_length : initState.routers.length = NUM_DEVICES := by
  rw [initState_eq]; rfl

/-- After any run of reports from the start state, device `r` satisfies `FeedInv` for its
accepted samples. -/
theorem runReports_feedInv (r : Nat) (hr : r < NUM_DEVICES) (evs : List (Nat × Nat))
    (hev : ∀ e ∈ evs, e.1 < NUM_DEVICES ∧ e.2 ≤ 255) :
    FeedInv (accepted r evs) (eraseLQI ((runReports evs initState).dev r)) := by
  rw [runReports_dev r evs initState zeroDevice (by rw [initState_length]; exact hr)
    (by rw [initState_dev])]
  obtain ⟨h1, h2, h3, h4, h5, h6⟩ := feedInv_foldl _ (accepted_bytes r evs hev)
  exact ⟨h1, h2, h3, h4, h5, h6⟩

/-! ## Fields that a step leaves alone -/

theorem updateRunningAverage_track_state (d : router_device) :
    (updateRunningAverage d).track_state = d.track_state := by
  simp only [updateRunningAverage]
  split_ifs <;> rfl

theorem switchDevice_average (d : router_device) :
    (switchDevice d).LQI_average = d.LQI_average := by
  unfold switchDevice
  split <;> (try split_ifs) <;> rfl

theorem switchDevice_initialized (d : router_device) :
    (switchDevice d).LQI_initialized = d.LQI_initialized := by
  unfold switchDevice
  split <;> (try split_ifs) <;> rfl

/-! ## The registry scan -/

theorem macMatch_zero (a b : List Nat) (js : List Nat) :
    js.foldl (fun m j => if a.getD j 0 ≠ b.getD j 0 then 0 else m) 0 = 0 := by
  induction js with
  | nil => rfl
  | cons j js ih => simp only [List.foldl_cons, ite_self]; exact ih

theorem macMatch_foldl (a b : List Nat) (js : List Nat) (m0 : Nat) :
    js.foldl (fun m j => if a.getD j 0 ≠ b.getD j 0 then 0 else m) m0 =
      if ∀ j ∈ js, a.getD j 0 = b.getD j 0 then m0 else 0 := by
  induction js generalizing m0 with
  | nil => simp
  | cons j js ih =>
    simp only [List.foldl_cons, List.mem_cons, forall_eq_or_imp]
    by_cases hj : a.getD j 0 = b.getD j 0
    · simp only [hj, ne_eq, not_true_eq_false, if_false, true_and]
      rw [ih]
    · simp only [hj, ne_eq, not_false_eq_true, if_true, false_and, if_false]
      exact macMatch_zero a b js

theorem macMatch_eq_one_iff (a b : List Nat) :
    macMatch a b = 1 ↔ ∀ j, j < 8 → a.getD j 0 = b.getD j 0 := by
  unfold macMatch
  rw [macMatch_foldl]
  have hall : (∀ j ∈ [7, 6, 5, 4, 3, 2, 1, 0], a.getD j 0 = b.getD j 0) ↔
      ∀ j, j < 8 → a.getD j 0 = b.getD j 0 := by
    constructor
    · intro h j hj
      apply h
      interval_cases j <;> simp
    · intro h j hj
      apply h
      simp only [List.mem_cons, List.mem_singleton, List.not_mem_nil, or_false] at hj
      omega
  rw [← hall]
  split_ifs with h
  · exact ⟨fun _ => h, fun _ => rfl⟩
  · exact ⟨fun h0 => absurd h0 (by decide), fun h1 => absurd h1 h⟩

theorem scanSlot_match (m : Message) (g : Globals) (k : Nat)
    (h : macMatch (g.dev k).MAC_address m.mac = 1) :
    (scanSlot m g k).current_router_index = k ∧
      (scanSlot m g k).routers.length = g.routers.length ∧
      (k < g.routers.length → (scanSlot m g k).dev k = { g.dev k with LQI := m.lqi }) ∧
      ∀ j, k ≠ j → (scanSlot m g k).dev j = g.dev j := by
  have he : scanSlot m g k =
      ({ g with current_router_index := k } : Globals).setDev k
        { g.dev k with LQI := m.lqi } := by
    unfold scanSlot
    rw [if_pos h]
    rfl
  rw [he]
  exact ⟨rfl, length_setDev _ _ _, fun hk => dev_setDev_same _ _ _ hk,
    fun j hj => dev_setDev_ne _ _ _ _ hj⟩

theorem scanSlot_no_match (m : Message) (g : Globals) (k : Nat)
    (h : macMatch (g.dev k).MAC_address m.mac ≠ 1) : scanSlot m g k = g := by
  unfold scanSlot
  rw [if_neg h]

theorem scanUpTo_succ (m : Message) (g : Globals) (n : Nat) :
    scanUpTo m g (n + 1) = scanSlot m (scanUpTo m g n) n := by
  simp [scanUpTo, List.range_succ, List.foldl_append]

theorem parseMessages_info (m : Message) (g : Globals)
    (hm : m.length_field > 0 ∧ m.is_af_incoming = true ∧ m.is_info_cluster = true) :
    parseMessages m g = scanUpTo m g NUM_DEVICES := by
  simp [parseMessages, scanUpTo, hm.1, hm.2.1, hm.2.2]

/-- State of the table, and of its length, after the scan of the slots below `n`. -/
theorem scanUpTo_dev (m : Message) (g : Globals) (n : Nat) (hn : n ≤ g.routers.length) :
    (scanUpTo m g n).routers.length = g.routers.length ∧
      ∀ k, (scanUpTo m g n).dev k =
        if k < n ∧ macMatch (g.dev k).MAC_address m.mac = 1 then
          { g.dev k with LQI := m.lqi }
        else g.dev k := by
  induction n with
  | zero => exact ⟨rfl, fun k => by simp [scanUpTo]⟩
  | succ n ih =>
    obtain ⟨hl, hd⟩ := ih (by omega)
    rw [scanUpTo_succ]
    have hdn : (scanUpTo m g n).dev n = g.dev n := by rw [hd n]; simp
    by_cases hmt : macMatch (g.dev n).MAC_address m.mac = 1
    · obtain ⟨_, h2, h3, h4⟩ := scanSlot_match m (scanUpTo m g n) n (by rw [hdn]; exact hmt)
      refine ⟨by rw [h2]; exact hl, fun k => ?_⟩
      by_cases hk : n = k
      · subst hk
        rw [h3 (by omega), hdn]
        simp [hmt]
      · have hlt : k < n + 1 ↔ k < n := by omega
        rw [h4 k hk, hd k]
        simp only [hlt]
    · rw [scanSlot_no_match m _ n (by rw [hdn]; exact hmt)]
      refine ⟨hl, fun k => ?_⟩
      rw [hd k]
      by_cases hk : k = n
      · subst hk; simp [hmt]
      · have hlt : k < n + 1 ↔ k < n := by omega
        simp only [hlt]

theorem scanUpTo_index_last (m : Message) (g : Globals) (n k : Nat) (hk : k < n)
    (hmt : macMatch (g.dev k).MAC_address m.mac = 1)
    (hlast : ∀ j, k < j → j < n → macMatch (g.dev j).MAC_address m.mac ≠ 1)
    (hn : n ≤ g.routers.length) :
    (scanUpTo m g n).current_router_index = k := by
  induction n with
  | zero => omega
  | succ n ih =>
    rw [scanUpTo_succ]
    have hdn : (scanUpTo m g n).dev n = g.dev n := by
      rw [(scanUpTo_dev m g n (by omega)).2 n]; simp
    by_cases hkn : k = n
    · subst hkn
      exact (scanSlot_match m (scanUpTo m g k) k (by rw [hdn]; exact hmt)).1
    · have hno := hlast n (by omega) (by omega)
      rw [scanSlot_no_match m _ n (by rw [hdn]; exact hno)]
      exact ih (by omega) (fun j h1 h2 => hlast j h1 (by omega)) (by omega)

theorem scanUpTo_no_match (m : Message) (g : Globals) (n : Nat)
    (hno : ∀ j, j < n → macMatch (g.dev j).MAC_address m.mac ≠ 1) :
    scanUpTo m g n = g := by
  induction n with
  | zero => rfl
  | succ n ih =>
    rw [scanUpTo_succ, ih (fun j hj => hno j (by omega))]
    exact scanSlot_no_match m g n (hno n (by omega))

/-! ## Effect of one tracking step on the alarm flags -/

theorem trackSwitch_sounding (r : Nat) (g : Globals) (h : r < g.routers.length) :
    (trackSwitch r g).alarm_sounding =
      if (g.dev r).track_state = TRACK_STATE.ITEM_LOST_ALARM then
        if (g.dev r).LQI_average > LQI_THRESHOLD then 0
        else if g.alarm_sounding = 0 then 1 else g.alarm_sounding
      else g.alarm_sounding := by
  unfold trackSwitch
  cases hts : (g.dev r).track_state
  · simp only [dev_with_silenced]
    split_ifs <;> first | rfl | contradiction
  · rfl
  · simp only [devices_connected_eq]
    by_cases hs : g.alarm_sounding = 0 <;>
      by_cases ha : (g.dev r).LQI_average > LQI_THRESHOLD <;>
      simp [hs, ha, dev_setDev_same, h, hts]
  · rfl

theorem trackSwitch_silenced (r : Nat) (g : Globals) :
    (trackSwitch r g).alarm_silenced =
      if (g.dev r).track_state = TRACK_STATE.ALL_ITEMS_CONNECTED then 0
      else g.alarm_silenced := by
  unfold trackSwitch
  cases hts : (g.dev r).track_state
  · simp only [dev_with_silenced]
    split_ifs <;> rfl
  · rfl
  · simp only [devices_connected_eq]
    by_cases hs : g.alarm_sounding = 0 <;>
      by_cases ha : (g.dev r).LQI_average > LQI_THRESHOLD <;>
      simp [hs, ha] <;> split_ifs <;> rfl
  · rfl

theorem tracking_sounding (r : Nat) (g : Globals) (h : r < g.routers.length) :
    (trackingStateMachine r g).alarm_sounding =
      if (g.dev r).LQI ≠ 0 ∧ (g.dev r).track_state = TRACK_STATE.ITEM_LOST_ALARM then
        if (updateRunningAverage (g.dev r)).LQI_average > LQI_THRESHOLD then 0
        else if g.alarm_sounding = 0 then 1 else g.alarm_sounding
      else g.alarm_sounding := by
  unfold trackingStateMachine
  by_cases hl : (g.dev r).LQI ≠ 0
  · rw [if_pos hl, trackSwitch_sounding _ _ (by rw [length_setDev]; exact h),
      dev_setDev_same _ _ _ h, updateRunningAverage_track_state]
    simp only [hl, ne_eq, not_false_eq_true, true_and]
    rfl
  · rw [if_neg hl]
    simp only [hl, false_and, if_false]

theorem tracking_silenced (r : Nat) (g : Globals) (h : r < g.routers.length) :
    (trackingStateMachine r g).alarm_silenced =
      if (g.dev r).LQI ≠ 0 ∧ (g.dev r).track_state = TRACK_STATE.ALL_ITEMS_CONNECTED then 0
      else g.alarm_silenced := by
  unfold trackingStateMachine
  by_cases hl : (g.dev r).LQI ≠ 0
  · rw [if_pos hl, trackSwitch_silenced, dev_setDev_same _ _ _ h,
      updateRunningAverage_track_state]
    simp only [hl, ne_eq, not_false_eq_true, true_and]
    rfl
  · rw [if_neg hl]
    simp only [hl, false_and, if_false]

/-! ## The alarm invariant -/

theorem switchDevice_stays_lost (d : router_device)
    (hts : d.track_state = TRACK_STATE.ITEM_LOST_ALARM)
    (ha : ¬ d.LQI_average > LQI_THRESHOLD) :
    (switchDevice d).track_state = TRACK_STATE.ITEM_LOST_ALARM := by
  unfold switchDevice
  rw [hts]
  simp only [ha, if_false]
  exact hts

theorem tracking_alarmInv (k : Nat) (g : Globals) (hk : k < g.routers.length)
    (hk10 : k < NUM_DEVICES) (h : AlarmInv g) : AlarmInv (trackingStateMachine k g) := by
  intro hs
  rw [tracking_sounding k g hk] at hs
  by_cases hc : (g.dev k).LQI ≠ 0 ∧ (g.dev k).track_state = TRACK_STATE.ITEM_LOST_ALARM
  · rw [if_pos hc] at hs
    by_cases ha : (updateRunningAverage (g.dev k)).LQI_average > LQI_THRESHOLD
    · rw [if_pos ha] at hs
      exact absurd hs (by decide)
    · refine ⟨k, hk10, ?_⟩
      rw [dev_tracking_same k g hk, trackDevice, if_pos hc.1]
      exact switchDevice_stays_lost _
        (by rw [updateRunningAverage_track_state]; exact hc.2) ha
  · rw [if_neg hc] at hs
    obtain ⟨i, hi, hL⟩ := h hs
    refine ⟨i, hi, ?_⟩
    by_cases hik : k = i
    · subst hik
      have h0 : ¬ (g.dev k).LQI ≠ 0 := fun h1 => hc ⟨h1, hL⟩
      rw [dev_tracking_same k g hk, trackDevice, if_neg h0]
      exact hL
    · rw [dev_tracking_ne k i g hik]
      exact hL

theorem storeLQI_track_state (k v i : Nat) (g : Globals) :
    ((storeLQI k v g).dev i).track_state = (g.dev i).track_state := by
  unfold storeLQI
  by_cases hik : k = i
  · subst hik
    by_cases hk : k < g.routers.length
    · rw [dev_setDev_same _ _ _ hk]
    · have hset : g.setDev k { g.dev k with LQI := v } = g := by
        simp [Globals.setDev, List.set_eq_of_length_le (Nat.le_of_not_lt hk)]
      rw [hset]
  · rw [dev_setDev_ne _ _ _ _ hik]

theorem reachable_alarmInv (g : Globals) (h : Reachable g) : AlarmInv g := by
  induction h with
  | init =>
    intro hs
    rw [initState_eq] at hs
    exact absurd hs (by decide)
  | mac g k a hg hk ih =>
    intro hs
    obtain ⟨i, hi, hL⟩ := ih hs
    refine ⟨i, hi, ?_⟩
    by_cases hki : k = i
    · subst hki
      rw [dev_setDev_same _ _ _ (by rw [(reachable_tableInv g hg).1]; exact hk)]
      exact hL
    · rw [dev_setDev_ne _ _ _ _ hki]
      exact hL
  | lqi g k v _ _ _ ih =>
    intro hs
    obtain ⟨i, hi, hL⟩ := ih hs
    exact ⟨i, hi, by rw [storeLQI_track_state]; exact hL⟩
  | track g k hg hk ih =>
    exact tracking_alarmInv k g (by rw [(reachable_tableInv g hg).1]; exact hk) hk ih
  | press g _ ih =>
    unfold processButtonPress
    split_ifs
    · exact ih
    · exact ih
  | hold g _ ih =>
    unfold processButtonHold
    split_ifs
    · exact ih
    · exact ih

theorem reachable_runReports (evs : List (Nat × Nat)) (g : Globals) (h : Reachable g)
    (hev : ∀ e ∈ evs, e.1 < NUM_DEVICES ∧ e.2 ≤ 255) : Reachable (runReports evs g) := by
  induction evs generalizing g with
  | nil => exact h
  | cons e rest ih =>
    have he := hev e (by simp)
    exact ih (report e g)
      (Reachable.track _ e.1 (Reachable.lqi g e.1 e.2 h he.1 he.2) he.1)
      (fun x hx => hev x (List.mem_cons_of_mem _ hx))

/-! ## One pass of `stateMachine` -/

theorem stateMachine_eq (e : Env) (g : Globals) :
    stateMachine e g =
      match (pollModule e g).state with
      | STATE.STATE_IDLE => some (stateMachine_idle e (pollModule e g))
      | STATE.STATE_MODULE_STARTUP =>
        match startupRetries e.startModule with
        | none => none
        | some _ =>
          some { pollModule e g with zigbeeNetworkStatus := NWK_ONLINE,
                                     state := STATE.STATE_DISPLAY_NETWORK_INFORMATION }
      | STATE.STATE_DISPLAY_NETWORK_INFORMATION =>
        some { pollModule e g with state := STATE.STATE_IDLE } := rfl

theorem pollModule_state (e : Env) (g : Globals) : (pollModule e g).state = g.state := by
  unfold pollModule
  split_ifs <;> rfl

/-- The two views of the retry loop agree: it ends for the same results, and it waits once
per failed call. -/
theorem startupLoop_eq_retries (l : List Bool) :
    startupLoop l =
      (startupRetries l).map (fun k => List.replicate k MODULE_START_DELAY_IF_FAIL_MS) := by
  induction l with
  | nil => rfl
  | cons b rest ih =>
    cases b
    · rw [startupLoop, startupRetries, ih]
      cases startupRetries rest <;> rfl
    · rfl

theorem startupRetries_fail_then_succeed (k : Nat) (rest : List Bool) :
    startupRetries (List.replicate k false ++ true :: rest) = some k := by
  induction k with
  | zero => rfl
  | succ k ih =>
    rw [List.replicate_succ, List.cons_append, startupRetries, ih]
    rfl

theorem startupLoop_fail_then_succeed (k : Nat) (rest : List Bool) :
    startupLoop (List.replicate k false ++ true :: rest) =
      some (List.replicate k MODULE_START_DELAY_IF_FAIL_MS) := by
  induction k with
  | zero => rfl
  | succ k ih =>
    rw [List.replicate_succ, List.cons_append, startupLoop, ih]
    rfl

/-! ## The invariant of `track_state` -/

theorem updateRunningAverage_initialized (d : router_device) :
    (updateRunningAverage d).LQI_initialized =
      if d.LQI_iter = LQI_NUM_SAMPLES then 1 else d.LQI_initialized := by
  simp only [updateRunningAverage]
  split_ifs <;> rfl

theorem switchDevice_connected_uninit (d : router_device)
    (hc : d.track_state = TRACK_STATE.ALL_ITEMS_CONNECTED) (hi : d.LQI_initialized ≠ 1) :
    switchDevice d = d := by
  unfold switchDevice
  rw [hc]
  simp only [hi, and_false, if_false]

theorem switchDevice_trackInv (d : router_device) (h : TrackInv d) :
    TrackInv (switchDevice d) := by
  obtain ⟨h1, h2⟩ := h
  unfold switchDevice
  split
  · split_ifs with hc
    · exact ⟨Or.inr rfl, fun hn => absurd hc.2 hn⟩
    · exact ⟨h1, h2⟩
  · split_ifs with hc
    · exact ⟨Or.inl rfl, fun _ => rfl⟩
    · exact ⟨h1, h2⟩
  · exact ⟨h1, h2⟩

theorem trackDevice_trackInv (d : router_device) (h : TrackInv d) :
    TrackInv (trackDevice d) := by
  unfold trackDevice
  split_ifs
  · apply switchDevice_trackInv
    obtain ⟨h1, h2⟩ := h
    refine ⟨by rw [updateRunningAverage_track_state]; exact h1, fun hn => ?_⟩
    rw [updateRunningAverage_track_state]
    apply h2
    rw [updateRunningAverage_initialized] at hn
    split_ifs at hn
    · exact absurd rfl hn
    · exact hn
  · exact h

theorem reachable_trackInv (g : Globals) (h : Reachable g) :
    ∀ i, i < NUM_DEVICES → TrackInv (g.dev i) := by
  have hlen := fun g hg => (reachable_tableInv g hg).1
  induction h with
  | init =>
    intro i _
    rw [initState_dev]
    exact ⟨Or.inl rfl, fun _ => rfl⟩
  | mac g k a hg hk ih =>
    intro i hi
    by_cases hki : k = i
    · subst hki
      rw [dev_setDev_same _ _ _ (by rw [hlen g hg]; exact hk)]
      exact ih k hk
    · rw [dev_setDev_ne _ _ _ _ hki]
      exact ih i hi
  | lqi g k v hg hk _ ih =>
    intro i hi
    by_cases hki : k = i
    · subst hki
      rw [storeLQI, dev_setDev_same _ _ _ (by rw [hlen g hg]; exact hk)]
      exact ih k hk
    · rw [storeLQI, dev_setDev_ne _ _ _ _ hki]
      exact ih i hi
  | track g k hg hk ih =>
    intro i hi
    by_cases hki : k = i
    · subst hki
      rw [dev_tracking_same _ _ (by rw [hlen g hg]; exact hk)]
      exact trackDevice_trackInv _ (ih k hk)
    · rw [dev_tracking_ne _ _ _ hki]
      exact ih i hi
  | press g _ ih =>
    unfold processButtonPress
    split_ifs
    · exact ih
    · exact ih
  | hold g _ ih =>
    unfold processButtonHold
    split_ifs
    · exact ih
    · exact ih

theorem lastSix_warm_sum (ss : List Nat) (h : ss.length ≤ 6) : (lastSix ss).sum = ss.sum := by
  rw [lastSix_warm ss h, List.sum_append, List.sum_replicate]
  simp

/-! ## The monitoring flag and the idle pass -/

theorem trackSwitch_coordinator_on (r : Nat) (g : Globals) :
    (trackSwitch r g).coordinator_on = g.coordinator_on := by
  unfold trackSwitch
  cases hts : (g.dev r).track_state
  · simp only [dev_with_silenced]
    split_ifs <;> rfl
  · rfl
  · simp only [devices_connected_eq]
    by_cases hs : g.alarm_sounding = 0 <;>
      by_cases ha : (g.dev r).LQI_average > LQI_THRESHOLD <;>
      simp [hs, ha] <;> split_ifs <;> rfl
  · rfl

theorem tracking_coordinator_on (r : Nat) (g : Globals) :
    (trackingStateMachine r g).coordinator_on = g.coordinator_on := by
  unfold trackingStateMachine
  split_ifs
  · rw [trackSwitch_coordinator_on]; rfl
  · rfl

theorem scanSlot_coordinator_on (m : Message) (g : Globals) (k : Nat) :
    (scanSlot m g k).coordinator_on = g.coordinator_on := by
  unfold scanSlot
  split_ifs <;> rfl

theorem parseMessages_coordinator_on (m : Message) (g : Globals) :
    (parseMessages m g).coordinator_on = g.coordinator_on := by
  have hscan : ∀ n, (scanUpTo m g n).coordinator_on = g.coordinator_on := by
    intro n
    induction n with
    | zero => rfl
    | succ n ih => rw [scanUpTo_succ, scanSlot_coordinator_on, ih]
  unfold parseMessages
  split_ifs
  · exact hscan NUM_DEVICES
  · rfl
  · rfl

theorem dispatchMessage_coordinator_on (e : Env) (g : Globals) :
    (dispatchMessage e g).coordinator_on = g.coordinator_on := by
  show (trackingStateMachine _ (parseMessages e.message g)).coordinator_on = _
  rw [tracking_coordinator_on, parseMessages_coordinator_on]

theorem pollModule_coordinator_on (e : Env) (g : Globals) :
    (pollModule e g).coordinator_on = g.coordinator_on := by
  unfold pollModule
  split_ifs <;> rfl

theorem processButtonHold_coordinator_on (g : Globals) :
    (processButtonHold g).coordinator_on = 0 ∨ (processButtonHold g).coordinator_on = 1 := by
  unfold processButtonHold
  split_ifs
  · exact Or.inr rfl
  · exact Or.inl rfl

theorem processButtonPress_coordinator_on (g : Globals) :
    (processButtonPress g).coordinator_on = g.coordinator_on := by
  unfold processButtonPress
  split_ifs <;> rfl

theorem handleButtonEvent_coordinator_on (e : Env) (g : Globals)
    (h : g.coordinator_on = 0 ∨ g.coordinator_on = 1) :
    (handleButtonEvent e g).coordinator_on = 0 ∨ (handleButtonEvent e g).coordinator_on = 1 := by
  have hp := processButtonPress_coordinator_on g
  unfold handleButtonEvent
  split_ifs
  · exact processButtonHold_coordinator_on (processButtonPress g)
  · show (processButtonPress g).coordinator_on = 0 ∨ (processButtonPress g).coordinator_on = 1
    rw [hp]; exact h
  · exact processButtonHold_coordinator_on g
  · exact h
  · exact h

theorem processButtonPress_frame (g : Globals) :
    (processButtonPress g).routers = g.routers ∧
      (processButtonPress g).current_router_index = g.current_router_index ∧
      (processButtonPress g).alarm_sounding = g.alarm_sounding ∧
      (processButtonPress g).stateFlags = g.stateFlags := by
  unfold processButtonPress
  split_ifs <;> exact ⟨rfl, rfl, rfl, rfl⟩

theorem processButtonHold_frame (g : Globals) :
    (processButtonHold g).routers = g.routers ∧
      (processButtonHold g).current_router_index = g.current_router_index ∧
      (processButtonHold g).alarm_sounding = g.alarm_sounding ∧
      (processButtonHold g).stateFlags = g.stateFlags := by
  unfold processButtonHold
  split_ifs <;> exact ⟨rfl, rfl, rfl, rfl⟩

theorem clear_button_keeps_message (x : Nat) :
    x &&& (0xFFFF - STATE_FLAG_BUTTON_PRESSED) &&& STATE_FLAG_MESSAGE_WAITING =
      x &&& STATE_FLAG_MESSAGE_WAITING := by
  rw [Nat.and_assoc]
  rfl

theorem handleButtonEvent_frame (e : Env) (g : Globals) :
    (handleButtonEvent e g).routers = g.routers ∧
      (handleButtonEvent e g).current_router_index = g.current_router_index ∧
      (handleButtonEvent e g).alarm_sounding = g.alarm_sounding ∧
      (handleButtonEvent e g).stateFlags &&& STATE_FLAG_MESSAGE_WAITING =
        g.stateFlags &&& STATE_FLAG_MESSAGE_WAITING ∧
      (g.stateFlags &&& STATE_FLAG_BUTTON_PRESSED = 0 → handleButtonEvent e g = g) := by
  obtain ⟨p1, p2, p3, p4⟩ := processButtonPress_frame g
  obtain ⟨h1, h2, h3, h4⟩ := processButtonHold_frame g
  obtain ⟨q1, q2, q3, q4⟩ := processButtonHold_frame (processButtonPress g)
  unfold handleButtonEvent
  refine ⟨?_, ?_, ?_, ?_, ?_⟩
  · split_ifs
    · exact q1.trans p1
    · exact p1
    · exact h1
    · rfl
    · rfl
  · split_ifs
    · exact q2.trans p2
    · exact p2
    · exact h2
    · rfl
    · rfl
  · split_ifs
    · exact q3.trans p3
    · exact p3
    · exact h3
    · rfl
    · rfl
  · split_ifs
    · show (processButtonHold (processButtonPress g)).stateFlags &&& _ &&& _ = _
      rw [clear_button_keeps_message, q4, p4]
    · show (processButtonPress g).stateFlags &&& _ &&& _ = _
      rw [clear_button_keeps_message, p4]
    · show (processButtonHold g).stateFlags &&& _ &&& _ = _
      rw [clear_button_keeps_message, h4]
    · exact clear_button_keeps_message _
    · rfl
  · intro h0
    rw [if_neg (by rw [h0]; decide)]

theorem stateMachine_idle_eq (e : Env) (g : Globals) :
    stateMachine_idle e g =
      handleButtonEvent e
        (if g.stateFlags &&& STATE_FLAG_MESSAGE_WAITING &&& g.coordinator_on ≠ 0 then
          dispatchMessage e g
        else g) := rfl

theorem dispatch_condition (x c : Nat) (hc : c = 0 ∨ c = 1) :
    x &&& STATE_FLAG_MESSAGE_WAITING &&& c ≠ 0 ↔
      (x &&& STATE_FLAG_MESSAGE_WAITING ≠ 0 ∧ c = 1) := by
  rcases hc with rfl | rfl
  · simp
  · rw [Nat.and_assoc]
    simp

theorem stateMachine_coordinator_on (e : Env) (g g1 : Globals)
    (h : g.coordinator_on = 0 ∨ g.coordinator_on = 1) (hp : stateMachine e g = some g1) :
    g1.coordinator_on = 0 ∨ g1.coordinator_on = 1 := by
  rw [stateMachine_eq] at hp
  have hpc := pollModule_coordinator_on e g
  cases hst : (pollModule e g).state
  · rw [hst] at hp
    simp only [Option.some.injEq] at hp
    rw [← hp, stateMachine_idle_eq]
    apply handleButtonEvent_coordinator_on
    split_ifs
    · rw [dispatchMessage_coordinator_on, hpc]; exact h
    · rw [hpc]; exact h
  · rw [hst] at hp
    cases hsr : startupRetries e.startModule
    · rw [hsr] at hp
      exact absurd hp (by simp)
    · rw [hsr] at hp
      simp only [Option.some.injEq] at hp
      rw [← hp]
      show (pollModule e g).coordinator_on = 0 ∨ (pollModule e g).coordinator_on = 1
      rw [hpc]; exact h
  · rw [hst] at hp
    simp only [Option.some.injEq] at hp
    rw [← hp]
    show (pollModule e g).coordinator_on = 0 ∨ (pollModule e g).coordinator_on = 1
    rw [hpc]; exact h

theorem mainReachable_coordinator_on (g : Globals) (h : MainReachable g) :
    g.coordinator_on = 0 ∨ g.coordinator_on = 1 := by
  induction h with
  | init => exact Or.inr (by decide)
  | pass e g g1 _ hp ih => exact stateMachine_coordinator_on e g g1 ih hp
  | isr g _ ih => exact ih
  | press g _ ih =>
    unfold processButtonPress
    split_ifs
    · exact ih
    · exact ih
  | hold g _ _ => exact processButtonHold_coordinator_on g

theorem poll_keeps_button (x : Nat) :
    (x ||| STATE_FLAG_MESSAGE_WAITING) &&& STATE_FLAG_BUTTON_PRESSED =
      x &&& STATE_FLAG_BUTTON_PRESSED := by
  rw [Nat.and_distrib_right]
  show x &&& STATE_FLAG_BUTTON_PRESSED ||| 0 = _
  exact Nat.or_zero _

theorem poll_raises_message (x : Nat) :
    (x ||| STATE_FLAG_MESSAGE_WAITING) &&& STATE_FLAG_MESSAGE_WAITING = 1 := by
  simp

theorem pollModule_frame (e : Env) (g : Globals) :
    (pollModule e g).routers = g.routers ∧
      (pollModule e g).current_router_index = g.current_router_index ∧
      (pollModule e g).alarm_sounding = g.alarm_sounding ∧
      (pollModule e g).alarm_silenced = g.alarm_silenced ∧
      (pollModule e g).stateFlags &&& STATE_FLAG_BUTTON_PRESSED =
        g.stateFlags &&& STATE_FLAG_BUTTON_PRESSED := by
  unfold pollModule
  split_ifs
  · exact ⟨rfl, rfl, rfl, rfl, poll_keeps_button _⟩
  · exact ⟨rfl, rfl, rfl, rfl, rfl⟩
  · exact ⟨rfl, rfl, rfl, rfl, rfl⟩

theorem stateMachine_idle_pass (e : Env) (g : Globals) (hs : g.state = STATE.STATE_IDLE) :
    stateMachine e g = some (stateMachine_idle e (pollModule e g)) := by
  rw [stateMachine_eq, pollModule_state, hs]

theorem stateMachine_disabled (e : Env) (g : Globals) (hs : g.state = STATE.STATE_IDLE)
    (hc : g.coordinator_on = 0) :
    stateMachine e g = some (handleButtonEvent e (pollModule e g)) := by
  rw [stateMachine_idle_pass e g hs, stateMachine_idle_eq, pollModule_coordinator_on, hc,
    if_neg (by simp)]

/-! ## Indices and arithmetic of the buffer update -/

theorem updateRunningAverage_buffer (d : router_device) :
    (updateRunningAverage d).LQI_running_average =
      d.LQI_running_average.set (bufferIndex d) d.LQI := by
  simp only [updateRunningAverage, bufferIndex]
  split_ifs <;> rfl

theorem bufferIndex_lt (d : router_device) (h : DevInv d) :
    bufferIndex d < LQI_NUM_SAMPLES := by
  have hi := h.iter
  unfold bufferIndex
  split_ifs with h6
  · decide
  · simp only [LQI_NUM_SAMPLES] at h6 ⊢
    omega

theorem bufferAccesses_lt (k : Nat) (g : Globals) (h : DevInv (g.dev k)) :
    ∀ idx ∈ bufferAccesses k g, idx < LQI_NUM_SAMPLES := by
  intro idx hidx
  unfold bufferAccesses at hidx
  split_ifs at hidx
  · rw [List.mem_append] at hidx
    rcases hidx with h1 | h1
    · simp only [List.mem_cons, List.mem_singleton, List.not_mem_nil, or_false, or_self] at h1
      rw [h1]
      exact bufferIndex_lt _ h
    · simp only [List.mem_flatten, List.mem_map, List.mem_range] at h1
      obtain ⟨l, ⟨_, _, rfl⟩, hl⟩ := h1
      exact List.mem_range.mp hl
  · simp at hidx

theorem devInv_nowrap (d : router_device) (h : DevInv d) :
    d.LQI_total ≤ 6 * 255 ∧ evicted d ≤ d.LQI_total ∧ d.LQI_total + d.LQI < 65536 ∧
      d.LQI_total / LQI_NUM_SAMPLES ≤ 255 ∧
      updateRunningAverage d = updateRunningAverage_exact d := by
  obtain ⟨ts, mac, buf, lqi, iter, tot, avg, ini⟩ := d
  obtain ⟨hlen, hlqi, hiter, hbytes, htotal, hwarm⟩ := h
  simp only at hlen hlqi hiter hbytes htotal hwarm
  obtain ⟨a, b, c, d, e, f, rfl⟩ := list_len6 hlen
  simp only [List.mem_cons, List.mem_singleton, forall_eq_or_imp, forall_eq,
    List.not_mem_nil] at hbytes
  subst htotal
  refine ⟨?_, ?_, ?_, ?_, ?_⟩
  · simp; omega
  · interval_cases iter <;> simp [evicted, bufferIndex] <;> omega
  · simp; omega
  · simp [LQI_NUM_SAMPLES]; omega
  · rcases hwarm with hw | ⟨hw, hz⟩
    · subst hw
      interval_cases iter <;>
        simp [updateRunningAverage, updateRunningAverage_exact, LQI_NUM_SAMPLES] <;> omega
    · subst hw
      interval_cases iter <;> simp at hz <;>
        simp [updateRunningAverage, updateRunningAverage_exact, LQI_NUM_SAMPLES, hz] <;>
        omega

/-! ## Claims -/

/-- C1: in every state reachable from the `structInit` start state by address assignments,
LQI stores (any byte 0..255, any device below `NUM_DEVICES`), `trackingStateMachine` calls
(any device below `NUM_DEVICES`) and button actions, every device's ring buffer has six
entries and its `LQI_total` equals their sum. -/
theorem C1_total_eq_buffer_sum (g : Globals) (h : Reachable g) (i : Nat)
    (hi : i < NUM_DEVICES) :
    (g.dev i).LQI_running_average.length = 6 ∧
      (g.dev i).LQI_total = (g.dev i).LQI_running_average.sum :=
  ⟨((reachable_tableInv g h).2 i hi).len, ((reachable_tableInv g h).2 i hi).total⟩

/-- C1 at a concrete reachable state: device 3 after the sample 0x90. -/
theorem C1_total_eq_buffer_sum_witness :
    Reachable (trackingStateMachine 3 (storeLQI 3 0x90 initState)) ∧ 3 < NUM_DEVICES ∧
      ((trackingStateMachine 3 (storeLQI 3 0x90 initState)).dev 3).LQI_running_average.length
        = 6 ∧
      ((trackingStateMachine 3 (storeLQI 3 0x90 initState)).dev 3).LQI_total =
        ((trackingStateMachine 3 (storeLQI 3 0x90 initState)).dev 3).LQI_running_average.sum :=
  ⟨Reachable.track _ 3 (Reachable.lqi _ 3 0x90 Reachable.init (by decide) (by decide))
      (by decide),
    by decide,
    C1_total_eq_buffer_sum _
      (Reachable.track _ 3 (Reachable.lqi _ 3 0x90 Reachable.init (by decide) (by decide))
        (by decide))
      3 (by decide)⟩

/-- C2: from the `structInit` start state, once at least six non-zero samples have been
recorded for device `r` (reports of other devices may come in between), `LQI_total` of `r`
is the sum of its last six samples and `LQI_average` is that sum divided by 6. -/
theorem C2_last_six_samples (r : Nat) (hr : r < NUM_DEVICES) (evs : List (Nat × Nat))
    (hev : ∀ e ∈ evs, e.1 < NUM_DEVICES ∧ e.2 ≤ 255)
    (hM : 6 ≤ (accepted r evs).length) :
    ((runReports evs initState).dev r).LQI_total =
        ((accepted r evs).drop ((accepted r evs).length - 6)).sum ∧
      ((runReports evs initState).dev r).LQI_average =
        ((accepted r evs).drop ((accepted r evs).length - 6)).sum / 6 := by
  have h := runReports_feedInv r hr evs hev
  rw [← lastSix_full _ hM]
  exact ⟨h.total, h.avg⟩

/-- C2 on `sampleRun`: device 2 has seven accepted samples. -/
theorem C2_last_six_samples_witness :
    2 < NUM_DEVICES ∧ (∀ e ∈ sampleRun, e.1 < NUM_DEVICES ∧ e.2 ≤ 255) ∧
      6 ≤ (accepted 2 sampleRun).length ∧
      (((runReports sampleRun initState).dev 2).LQI_total =
          ((accepted 2 sampleRun).drop ((accepted 2 sampleRun).length - 6)).sum ∧
        ((runReports sampleRun initState).dev 2).LQI_average =
          ((accepted 2 sampleRun).drop ((accepted 2 sampleRun).length - 6)).sum / 6) :=
  ⟨by decide, by decide, by decide,
    C2_last_six_samples 2 (by decide) sampleRun (by decide) (by decide)⟩

/-- C3: a `trackingStateMachine` step that accepts a sample for device `r` leaves in
`routers[r]` the average and the flag computed by the buffer update of that step, and moves
`track_state` by them: from CONNECTED to LOST exactly when the new average is below 0x50
and `LQI_initialized` is 1, otherwise it stays CONNECTED; from LOST to CONNECTED exactly
when the new average is above 0x50, otherwise it stays LOST; an average equal to 0x50
leaves `track_state` as it was. -/
theorem C3_transition_rule (g : Globals) (r : Nat) (hlen : g.routers.length = NUM_DEVICES)
    (hr : r < NUM_DEVICES) (hl : (g.dev r).LQI ≠ 0) :
    ((trackingStateMachine r g).dev r).LQI_average =
        (updateRunningAverage (g.dev r)).LQI_average ∧
      ((trackingStateMachine r g).dev r).LQI_initialized =
        (updateRunningAverage (g.dev r)).LQI_initialized ∧
      ((g.dev r).track_state = TRACK_STATE.ALL_ITEMS_CONNECTED →
        (((trackingStateMachine r g).dev r).track_state = TRACK_STATE.ITEM_LOST_ALARM ↔
            ((trackingStateMachine r g).dev r).LQI_average < 0x50 ∧
              ((trackingStateMachine r g).dev r).LQI_initialized = 1) ∧
          (((trackingStateMachine r g).dev r).track_state ≠ TRACK_STATE.ITEM_LOST_ALARM →
            ((trackingStateMachine r g).dev r).track_state =
              TRACK_STATE.ALL_ITEMS_CONNECTED)) ∧
      ((g.dev r).track_state = TRACK_STATE.ITEM_LOST_ALARM →
        (((trackingStateMachine r g).dev r).track_state = TRACK_STATE.ALL_ITEMS_CONNECTED ↔
            ((trackingStateMachine r g).dev r).LQI_average > 0x50) ∧
          (((trackingStateMachine r g).dev r).track_state ≠
              TRACK_STATE.ALL_ITEMS_CONNECTED →
            ((trackingStateMachine r g).dev r).track_state = TRACK_STATE.ITEM_LOST_ALARM)) ∧
      (((trackingStateMachine r g).dev r).LQI_average = 0x50 →
        ((trackingStateMachine r g).dev r).track_state = (g.dev r).track_state) := by
  rw [dev_tracking_same r g (by rw [hlen]; exact hr)]
  have hts := updateRunningAverage_track_state (g.dev r)
  simp only [trackDevice, hl, ne_eq, not_false_eq_true, if_true, switchDevice_average,
    switchDevice_initialized]
  generalize updateRunningAverage (g.dev r) = x at hts ⊢
  rw [← hts]
  clear hts hl hr hlen
  obtain ⟨ts, mac, buf, lqi, iter, tot, avg, ini⟩ := x
  cases ts <;> simp [switchDevice, LQI_THRESHOLD] <;> split_ifs <;> simp_all <;> omega

/-- C3 on the seventh low sample of device 0: the device is CONNECTED before the step and
LOST after it, the new average 0x10 being below 0x50 with the flag set. -/
theorem C3_transition_rule_witness :
    lowSeventh.routers.length = NUM_DEVICES ∧ 0 < NUM_DEVICES ∧ (lowSeventh.dev 0).LQI ≠ 0 ∧
      (lowSeventh.dev 0).track_state = TRACK_STATE.ALL_ITEMS_CONNECTED ∧
      ((trackingStateMachine 0 lowSeventh).dev 0).track_state = TRACK_STATE.ITEM_LOST_ALARM ∧
      ((trackingStateMachine 0 lowSeventh).dev 0).LQI_average < 0x50 ∧
      ((trackingStateMachine 0 lowSeventh).dev 0).LQI_initialized = 1 :=
  have h := C3_transition_rule lowSeventh 0 (by decide) (by decide) (by decide)
  have hc : (lowSeventh.dev 0).track_state = TRACK_STATE.ALL_ITEMS_CONNECTED := by decide
  have hlost : ((trackingStateMachine 0 lowSeventh).dev 0).track_state =
      TRACK_STATE.ITEM_LOST_ALARM := by decide
  ⟨by decide, by decide, by decide, hc, hlost, ((h.2.2.1 hc).1.mp hlost).1,
    ((h.2.2.1 hc).1.mp hlost).2⟩

/-- C4, the code at the failing input: in `twoLost` the alarm sounds and devices 0 and 1 are
both LOST; the next good sample of device 0 brings device 0 back to CONNECTED and clears
`alarm_sounding`, although device 1 is still LOST. -/
theorem C4_alarm_cleared_while_device_lost :
    twoLost.alarm_sounding = 1 ∧
      (twoLost.dev 0).track_state = TRACK_STATE.ITEM_LOST_ALARM ∧
      (twoLost.dev 1).track_state = TRACK_STATE.ITEM_LOST_ALARM ∧
      ((report (0, 0xFF) twoLost).dev 0).LQI_average > 0x50 ∧
      ((report (0, 0xFF) twoLost).dev 0).track_state = TRACK_STATE.ALL_ITEMS_CONNECTED ∧
      ((report (0, 0xFF) twoLost).dev 1).track_state = TRACK_STATE.ITEM_LOST_ALARM ∧
      (report (0, 0xFF) twoLost).alarm_sounding = 0 := by
  decide

set_option maxRecDepth 8192 in
/-- C5, the code at the failing input: after start-up and one sample 0x90 from the device
of slot 0, an IDLE pass handles a message that resolves to no device (`parseMessages`
leaves every variable as it was) and `trackingStateMachine` records the stale byte 0x90 of
slot 0 a second time: cursor, buffer, total and average of slot 0 all change. The same
happens for a message that is not an incoming info message. -/
theorem C5_stale_sample_recorded_again :
    (runPasses oneSampleRun mainInit).map (fun g => (g.state, g.current_router_index)) =
      some (STATE.STATE_IDLE, 0) ∧
    (runPasses oneSampleRun mainInit).map (fun g => g.dev 0) =
      some { track_state := TRACK_STATE.ALL_ITEMS_CONNECTED,
             MAC_address := [0x5E, 0xD2, 0x5D, 0x02, 0x00, 0x4B, 0x12, 0x00],
             LQI_running_average := [0x90, 0, 0, 0, 0, 0],
             LQI := 0x90, LQI_iter := 1, LQI_total := 0x90, LQI_average := 0x18,
             LQI_initialized := 0 } ∧
    (runPasses oneSampleRun mainInit).map (fun g => decide (parseMessages msgStranger g = g)) =
      some true ∧
    (runPasses (oneSampleRun ++ [envMessage msgStranger]) mainInit).map (fun g => g.dev 0) =
      some { track_state := TRACK_STATE.ALL_ITEMS_CONNECTED,
             MAC_address := [0x5E, 0xD2, 0x5D, 0x02, 0x00, 0x4B, 0x12, 0x00],
             LQI_running_average := [0x90, 0x90, 0, 0, 0, 0],
             LQI := 0x90, LQI_iter := 2, LQI_total := 0x120, LQI_average := 0x30,
             LQI_initialized := 0 } ∧
    (runPasses (oneSampleRun ++ [envMessage msgOther]) mainInit).map (fun g => g.dev 0) =
      some { track_state := TRACK_STATE.ALL_ITEMS_CONNECTED,
             MAC_address := [0x5E, 0xD2, 0x5D, 0x02, 0x00, 0x4B, 0x12, 0x00],
             LQI_running_average := [0x90, 0x90, 0, 0, 0, 0],
             LQI := 0x90, LQI_iter := 2, LQI_total := 0x120, LQI_average := 0x30,
             LQI_initialized := 0 } := by
  decide

/-- C6 as stated fails: after exactly six accepted samples `LQI_initialized` is still 0. -/
theorem C6_flag_after_six_counterexample :
    (accepted 0 (List.replicate 6 (0, 0x10))).length = 6 ∧
      ¬ ((runReports (List.replicate 6 (0, 0x10)) initState).dev 0).LQI_initialized = 1 := by
  decide

/-- C6 amended: from the `structInit` start state, `LQI_initialized` of device `r` is 0 as
long as at most six samples have been accepted for `r`, and is 1 after the seventh and after
every later one. -/
theorem C6_flag_set_by_seventh_sample (r : Nat) (hr : r < NUM_DEVICES)
    (evs : List (Nat × Nat)) (hev : ∀ e ∈ evs, e.1 < NUM_DEVICES ∧ e.2 ≤ 255) :
    ((accepted r evs).length ≤ 6 →
        ((runReports evs initState).dev r).LQI_initialized = 0) ∧
      (6 < (accepted r evs).length →
        ((runReports evs initState).dev r).LQI_initialized = 1) := by
  have h := (runReports_feedInv r hr evs hev).init
  have he : (eraseLQI ((runReports evs initState).dev r)).LQI_initialized =
      ((runReports evs initState).dev r).LQI_initialized := rfl
  rw [he] at h
  constructor
  · intro hle
    rcases h with ⟨_, h0⟩ | ⟨hlt, _⟩
    · exact h0
    · omega
  · intro hlt
    rcases h with ⟨hle, _⟩ | ⟨_, h1⟩
    · omega
    · exact h1

/-- C6 amended, on `sampleRun`: device 2 has seven accepted samples and its flag is 1. -/
theorem C6_flag_set_by_seventh_sample_witness :
    2 < NUM_DEVICES ∧ (∀ e ∈ sampleRun, e.1 < NUM_DEVICES ∧ e.2 ≤ 255) ∧
      6 < (accepted 2 sampleRun).length ∧
      ((runReports sampleRun initState).dev 2).LQI_initialized = 1 :=
  ⟨by decide, by decide, by decide,
    (C6_flag_set_by_seventh_sample 2 (by decide) sampleRun (by decide)).2 (by decide)⟩

/-- C7 as stated fails: in the registry of `main` the slots 2 to 9 all hold the all-zero
address. For an info message from that address the lowest matching slot is 2, yet
`current_router_index` becomes 9 and the LQI byte is written to slot 9 as well. -/
theorem C7_first_match_counterexample :
    (∀ j, j < 8 → (mainInit.dev 2).MAC_address.getD j 0 = msgZeroMac.mac.getD j 0) ∧
      ¬ (∀ j, j < 8 → (mainInit.dev 0).MAC_address.getD j 0 = msgZeroMac.mac.getD j 0) ∧
      ¬ (∀ j, j < 8 → (mainInit.dev 1).MAC_address.getD j 0 = msgZeroMac.mac.getD j 0) ∧
      (parseMessages msgZeroMac mainInit).current_router_index = 9 ∧
      (mainInit.dev 9).LQI = 0 ∧
      ((parseMessages msgZeroMac mainInit).dev 9).LQI = 0x77 := by
  decide

/-- C7 amended: for an incoming info message the registry scan writes the LQI byte to every
slot whose 8 address bytes equal the sender address, changes nothing else in any record,
and leaves `current_router_index` at the highest-indexed matching slot; when no slot matches,
no variable changes. -/
theorem C7_scan_last_match (m : Message) (g : Globals)
    (hlen : g.routers.length = NUM_DEVICES)
    (hm : m.length_field > 0 ∧ m.is_af_incoming = true ∧ m.is_info_cluster = true) :
    (∀ k, k < NUM_DEVICES → slotMatches m g k →
        (parseMessages m g).dev k = { g.dev k with LQI := m.lqi }) ∧
      (∀ k, k < NUM_DEVICES → ¬ slotMatches m g k → (parseMessages m g).dev k = g.dev k) ∧
      (∀ k, k < NUM_DEVICES → slotMatches m g k →
        (∀ j, k < j → j < NUM_DEVICES → ¬ slotMatches m g j) →
        (parseMessages m g).current_router_index = k) ∧
      ((∀ k, k < NUM_DEVICES → ¬ slotMatches m g k) → parseMessages m g = g) := by
  have hiff : ∀ k, slotMatches m g k ↔ macMatch (g.dev k).MAC_address m.mac = 1 :=
    fun k => (macMatch_eq_one_iff _ _).symm
  rw [parseMessages_info m g hm]
  have hd := (scanUpTo_dev m g NUM_DEVICES (by rw [hlen])).2
  refine ⟨fun k hk hmt => ?_, fun k _ hmt => ?_, fun k hk hmt hlast => ?_, fun hno => ?_⟩
  · rw [hd k, if_pos ⟨hk, (hiff k).mp hmt⟩]
  · rw [hd k, if_neg (fun h => hmt ((hiff k).mpr h.2))]
  · exact scanUpTo_index_last m g NUM_DEVICES k hk ((hiff k).mp hmt)
      (fun j h1 h2 h3 => hlast j h1 h2 ((hiff j).mpr h3)) (by rw [hlen])
  · exact scanUpTo_no_match m g NUM_DEVICES (fun j hj h => hno j hj ((hiff j).mpr h))

/-- C7 amended, on the registry of `main` and a message from the device of slot 0: slot 0
is the only match, it receives the LQI byte 0x90 and becomes the current slot. -/
theorem C7_scan_last_match_witness :
    mainInit.routers.length = NUM_DEVICES ∧
      (msgSlot0.length_field > 0 ∧ msgSlot0.is_af_incoming = true ∧
        msgSlot0.is_info_cluster = true) ∧
      (parseMessages msgSlot0 mainInit).dev 0 = { mainInit.dev 0 with LQI := 0x90 } ∧
      (parseMessages msgSlot0 mainInit).current_router_index = 0 :=
  have h := C7_scan_last_match msgSlot0 mainInit (by decide) (by decide)
  have h0 : slotMatches msgSlot0 mainInit 0 := by unfold slotMatches; decide
  have hrest : ∀ j, 0 < j → j < NUM_DEVICES → ¬ slotMatches msgSlot0 mainInit j := by
    intro j h0 hj
    unfold slotMatches
    interval_cases j <;> decide
  ⟨by decide, by decide, h.1 0 (by decide) h0, h.2.2.1 0 (by decide) h0 hrest⟩

/-- C8: in every state reachable from the `structInit` start state by address assignments,
LQI stores, `trackingStateMachine` calls, `processButtonPress` and `processButtonHold`, a
sounding alarm
(`alarm_sounding = 1`) has at least one device in `ITEM_LOST_ALARM`. -/
theorem C8_sounding_has_lost_device (g : Globals) (h : Reachable g)
    (hs : g.alarm_sounding = 1) :
    ∃ i, i < NUM_DEVICES ∧ (g.dev i).track_state = TRACK_STATE.ITEM_LOST_ALARM :=
  reachable_alarmInv g h hs

/-- C8 on `silencedAlarm`, a reachable state whose alarm sounds. -/
theorem C8_sounding_has_lost_device_witness :
    Reachable silencedAlarm ∧ silencedAlarm.alarm_sounding = 1 ∧
      ∃ i, i < NUM_DEVICES ∧ (silencedAlarm.dev i).track_state = TRACK_STATE.ITEM_LOST_ALARM :=
  have hr : Reachable silencedAlarm :=
    Reachable.press _ (reachable_runReports _ _ Reachable.init (by decide))
  ⟨hr, by decide, C8_sounding_has_lost_device silencedAlarm hr (by decide)⟩

/-- C9: `processButtonPress` sets `alarm_silenced` to 1 when `alarm_sounding` is 1 and leaves
it as it was otherwise (in particular when `alarm_sounding` is 0); `alarm_sounding`,
`coordinator_on` and the whole device table are unchanged in both cases. -/
theorem C9_press_frame (g : Globals) :
    (g.alarm_sounding = 1 → (processButtonPress g).alarm_silenced = 1) ∧
      (g.alarm_sounding ≠ 1 → (processButtonPress g).alarm_silenced = g.alarm_silenced) ∧
      (processButtonPress g).alarm_sounding = g.alarm_sounding ∧
      (processButtonPress g).coordinator_on = g.coordinator_on ∧
      (processButtonPress g).routers = g.routers := by
  unfold processButtonPress
  by_cases h : g.alarm_sounding = 1
  · simp [h]
  · simp [h]

/-- C9 on `twoLost`, whose alarm is sounding and not silenced: the press silences it. -/
theorem C9_press_frame_witness :
    twoLost.alarm_sounding = 1 ∧ twoLost.alarm_silenced = 0 ∧
      (processButtonPress twoLost).alarm_silenced = 1 ∧
      (processButtonPress twoLost).routers = twoLost.routers :=
  ⟨by decide, by decide, (C9_press_frame twoLost).1 (by decide),
    (C9_press_frame twoLost).2.2.2.2⟩

/-- C10 as stated fails: in `silencedAlarm` the alarm is sounding and silenced and device 1
is CONNECTED; a sample accepted for device 1 clears `alarm_silenced` while the alarm is
still sounding. -/
theorem C10_silence_kept_counterexample :
    silencedAlarm.alarm_sounding = 1 ∧ silencedAlarm.alarm_silenced = 1 ∧
      (silencedAlarm.dev 1).track_state = TRACK_STATE.ALL_ITEMS_CONNECTED ∧
      (report (1, 0x90) silencedAlarm).alarm_sounding = 1 ∧
      (report (1, 0x90) silencedAlarm).alarm_silenced = 0 := by
  decide

/-- C10 amended: a `trackingStateMachine` step that accepts a sample for a device in state
CONNECTED leaves `alarm_silenced` at 0 and `alarm_sounding` as it was, whether or not the
alarm is sounding; a step that accepts a sample for a device in `ITEM_LOST_ALARM`, and a
step that accepts no sample, leave `alarm_silenced` as it was. -/
theorem C10_connected_step_clears_silence (g : Globals) (r : Nat)
    (hlen : g.routers.length = NUM_DEVICES) (hr : r < NUM_DEVICES) :
    ((g.dev r).LQI ≠ 0 → (g.dev r).track_state = TRACK_STATE.ALL_ITEMS_CONNECTED →
        (trackingStateMachine r g).alarm_silenced = 0 ∧
          (trackingStateMachine r g).alarm_sounding = g.alarm_sounding) ∧
      ((g.dev r).track_state = TRACK_STATE.ITEM_LOST_ALARM →
        (trackingStateMachine r g).alarm_silenced = g.alarm_silenced) ∧
      ((g.dev r).LQI = 0 →
        (trackingStateMachine r g).alarm_silenced = g.alarm_silenced) := by
  have hk : r < g.routers.length := by rw [hlen]; exact hr
  rw [tracking_silenced r g hk, tracking_sounding r g hk]
  refine ⟨fun hl hc => ?_, fun hL => ?_, fun h0 => ?_⟩
  · simp [hl, hc]
  · simp [hL]
  · simp [h0]

/-- C10 amended, on `silencedAlarm` with the sample 0x90 stored for device 1. -/
theorem C10_connected_step_clears_silence_witness :
    (storeLQI 1 0x90 silencedAlarm).routers.length = NUM_DEVICES ∧ 1 < NUM_DEVICES ∧
      ((storeLQI 1 0x90 silencedAlarm).dev 1).LQI ≠ 0 ∧
      ((storeLQI 1 0x90 silencedAlarm).dev 1).track_state = TRACK_STATE.ALL_ITEMS_CONNECTED ∧
      (storeLQI 1 0x90 silencedAlarm).alarm_sounding = 1 ∧
      (storeLQI 1 0x90 silencedAlarm).alarm_silenced = 1 ∧
      (trackingStateMachine 1 (storeLQI 1 0x90 silencedAlarm)).alarm_silenced = 0 ∧
      (trackingStateMachine 1 (storeLQI 1 0x90 silencedAlarm)).alarm_sounding =
        (storeLQI 1 0x90 silencedAlarm).alarm_sounding :=
  ⟨by decide, by decide, by decide, by decide, by decide, by decide,
    (C10_connected_step_clears_silence (storeLQI 1 0x90 silencedAlarm) 1 (by decide)
      (by decide)).1 (by decide) (by decide)⟩

/-- C12 as stated fails: after six accepted samples of device 0 the state is reachable and
`LQI_iter` of device 0 is 6, not below 6. -/
theorem C12_cursor_below_six_counterexample :
    Reachable (runReports (sixLow 0) initState) ∧
      ((runReports (sixLow 0) initState).dev 0).LQI_iter = 6 ∧
      ¬ ((runReports (sixLow 0) initState).dev 0).LQI_iter < LQI_NUM_SAMPLES :=
  ⟨reachable_runReports _ _ Reachable.init (by decide), by decide, by decide⟩

/-- C12 amended: in every state reachable from the `structInit` start state, every device's
write cursor `LQI_iter` is in [0, 6], at most `LQI_NUM_SAMPLES`, between steps. -/
theorem C12_cursor_at_most_six (g : Globals) (h : Reachable g) (i : Nat)
    (hi : i < NUM_DEVICES) : (g.dev i).LQI_iter ≤ LQI_NUM_SAMPLES :=
  ((reachable_tableInv g h).2 i hi).iter

/-- C12 amended, on the state after six samples of device 0. -/
theorem C12_cursor_at_most_six_witness :
    Reachable (runReports (sixLow 0) initState) ∧ 0 < NUM_DEVICES ∧
      ((runReports (sixLow 0) initState).dev 0).LQI_iter ≤ LQI_NUM_SAMPLES :=
  ⟨reachable_runReports _ _ Reachable.init (by decide), by decide,
    C12_cursor_at_most_six _ (reachable_runReports _ _ Reachable.init (by decide)) 0
      (by decide)⟩

/-- C13: if `startModule` fails `k` times and then succeeds, a `stateMachine` pass in
`STATE_MODULE_STARTUP` ends, has made exactly `k` calls `delayMs(5000)`, sets
`zigbeeNetworkStatus` to `NWK_ONLINE` and leaves `state` at
`STATE_DISPLAY_NETWORK_INFORMATION`; the pass that follows ends with `state = STATE_IDLE`,
whatever the collaborators answer. -/
theorem C13_startup_retries (k : Nat) (rest : List Bool) (e : Env) (g : Globals)
    (hs : g.state = STATE.STATE_MODULE_STARTUP)
    (he : e.startModule = List.replicate k false ++ true :: rest) :
    stateMachine_delays e g = some (List.replicate k 5000) ∧
      ∃ g1, stateMachine e g = some g1 ∧
        g1.zigbeeNetworkStatus = NWK_ONLINE ∧
        g1.state = STATE.STATE_DISPLAY_NETWORK_INFORMATION ∧
        ∀ e2 : Env, ∃ g2, stateMachine e2 g1 = some g2 ∧ g2.state = STATE.STATE_IDLE := by
  constructor
  · unfold stateMachine_delays
    rw [hs, he]
    exact startupLoop_fail_then_succeed k rest
  · refine ⟨{ pollModule e g with zigbeeNetworkStatus := NWK_ONLINE,
                                   state := STATE.STATE_DISPLAY_NETWORK_INFORMATION }, ?_,
      rfl, rfl, fun e2 => ?_⟩
    · rw [stateMachine_eq, pollModule_state, hs, he]
      simp only [startupRetries_fail_then_succeed]
    · rw [stateMachine_eq, pollModule_state]
      exact ⟨_, rfl, rfl⟩

/-- C13 on the start state of `main` with three failures before the success. -/
theorem C13_startup_retries_witness :
    mainInit.state = STATE.STATE_MODULE_STARTUP ∧
      envThreeFailures.startModule = List.replicate 3 false ++ true :: [] ∧
      stateMachine_delays envThreeFailures mainInit = some [5000, 5000, 5000] ∧
      ∃ g1, stateMachine envThreeFailures mainInit = some g1 ∧
        g1.zigbeeNetworkStatus = NWK_ONLINE ∧
        g1.state = STATE.STATE_DISPLAY_NETWORK_INFORMATION ∧
        ∀ e2 : Env, ∃ g2, stateMachine e2 g1 = some g2 ∧ g2.state = STATE.STATE_IDLE :=
  ⟨by decide, by decide,
    C13_startup_retries 3 [] envThreeFailures mainInit (by decide) (by decide)⟩

/-- C14: in every state reachable by `stateMachine` passes, the button interrupt and the
button actions, `coordinator_on` is 0 or 1, and an IDLE pass runs `parseMessages` and
`trackingStateMachine` (the dispatch of lines 322-324) exactly when the message-waiting
flag, as the pass has just updated it, is set and `coordinator_on` is 1; with
`coordinator_on = 0` and no button event pending the pass changes no device record and no
alarm flag. -/
theorem C14_dispatch_gate (g : Globals) (hg : MainReachable g)
    (hs : g.state = STATE.STATE_IDLE) (e : Env) :
    (g.coordinator_on = 0 ∨ g.coordinator_on = 1) ∧
      stateMachine e g =
        some (handleButtonEvent e
          (if (pollModule e g).stateFlags &&& STATE_FLAG_MESSAGE_WAITING ≠ 0 ∧
              g.coordinator_on = 1 then
            dispatchMessage e (pollModule e g)
          else pollModule e g)) ∧
      (g.coordinator_on = 0 → g.stateFlags &&& STATE_FLAG_BUTTON_PRESSED = 0 →
        ∃ g1, stateMachine e g = some g1 ∧ g1.routers = g.routers ∧
          g1.alarm_sounding = g.alarm_sounding ∧ g1.alarm_silenced = g.alarm_silenced) := by
  have hc := mainReachable_coordinator_on g hg
  refine ⟨hc, ?_, fun h0 hb => ?_⟩
  · rw [stateMachine_idle_pass e g hs, stateMachine_idle_eq, pollModule_coordinator_on]
    by_cases hd : (pollModule e g).stateFlags &&& STATE_FLAG_MESSAGE_WAITING ≠ 0 ∧
        g.coordinator_on = 1
    · rw [if_pos hd, if_pos ((dispatch_condition _ _ hc).mpr hd)]
    · rw [if_neg hd, if_neg (fun h => hd ((dispatch_condition _ _ hc).mp h))]
  · obtain ⟨f1, _, f3, f4, f5⟩ := pollModule_frame e g
    refine ⟨pollModule e g, ?_, f1, f3, f4⟩
    rw [stateMachine_disabled e g hs h0,
      (handleButtonEvent_frame e (pollModule e g)).2.2.2.2 (by rw [f5]; exact hb)]

/-- C14 on `idleOnline`, reached from the start state of `main` by the start-up and the
display pass: a message from the device of slot 0 is dispatched. -/
theorem C14_dispatch_gate_witness :
    MainReachable idleOnline ∧ idleOnline.state = STATE.STATE_IDLE ∧
      idleOnline.coordinator_on = 1 ∧
      (pollModule (envMessage msgSlot0) idleOnline).stateFlags &&&
        STATE_FLAG_MESSAGE_WAITING ≠ 0 ∧
      stateMachine (envMessage msgSlot0) idleOnline =
        some (handleButtonEvent (envMessage msgSlot0)
          (dispatchMessage (envMessage msgSlot0)
            (pollModule (envMessage msgSlot0) idleOnline))) :=
  have hr : MainReachable idleOnline :=
    MainReachable.pass envQuiet
      { mainInit with zigbeeNetworkStatus := NWK_ONLINE,
                      state := STATE.STATE_DISPLAY_NETWORK_INFORMATION }
      idleOnline
      (MainReachable.pass envQuiet mainInit _ MainReachable.init (by decide)) (by decide)
  have h := (C14_dispatch_gate idleOnline hr (by decide) (envMessage msgSlot0)).2.1
  ⟨hr, by decide, by decide, by decide, by
    rw [if_pos ⟨by decide, by decide⟩] at h
    exact h⟩

/-- C15 as stated fails: after six samples 0x10 of device 0 the average is 0x10, but
`LQI_initialized` is 0, the device is CONNECTED and `alarm_sounding` is 0. -/
theorem C15_six_low_samples_counterexample :
    ((runReports (sixLow 0) initState).dev 0).LQI_average = 0x10 ∧
      ¬ ((runReports (sixLow 0) initState).dev 0).LQI_initialized = 1 ∧
      ¬ ((runReports (sixLow 0) initState).dev 0).track_state =
        TRACK_STATE.ITEM_LOST_ALARM ∧
      ¬ (runReports (sixLow 0) initState).alarm_sounding = 1 := by
  decide

set_option maxRecDepth 8192 in
/-- C15 amended: from the `structInit` start state, six samples 0x10 of one device yield
`LQI_average = 0x10` with `LQI_initialized = 0`, the device CONNECTED and
`alarm_sounding = 0`; the seventh sample 0x10 sets `LQI_initialized = 1` and moves the device
to LOST (`ITEM_LOST_ALARM`); the eighth sets `alarm_sounding = 1`. -/
theorem C15_low_samples_scenario (r : Nat) (hr : r < NUM_DEVICES) :
    (((runReports (sixLow r) initState).dev r).LQI_average = 0x10 ∧
        ((runReports (sixLow r) initState).dev r).LQI_initialized = 0 ∧
        ((runReports (sixLow r) initState).dev r).track_state =
          TRACK_STATE.ALL_ITEMS_CONNECTED ∧
        (runReports (sixLow r) initState).alarm_sounding = 0) ∧
      (((runReports (sixLow r ++ [(r, 0x10)]) initState).dev r).LQI_average = 0x10 ∧
        ((runReports (sixLow r ++ [(r, 0x10)]) initState).dev r).LQI_initialized = 1 ∧
        ((runReports (sixLow r ++ [(r, 0x10)]) initState).dev r).track_state =
          TRACK_STATE.ITEM_LOST_ALARM ∧
        (runReports (sixLow r ++ [(r, 0x10)]) initState).alarm_sounding = 0) ∧
      (((runReports (sixLow r ++ [(r, 0x10), (r, 0x10)]) initState).dev r).track_state =
          TRACK_STATE.ITEM_LOST_ALARM ∧
        (runReports (sixLow r ++ [(r, 0x10), (r, 0x10)]) initState).alarm_sounding = 1) := by
  interval_cases r <;> decide

/-- C15 amended, for device 4. -/
theorem C15_low_samples_scenario_witness :
    4 < NUM_DEVICES ∧
      ((runReports (sixLow 4 ++ [(4, 0x10)]) initState).dev 4).track_state =
        TRACK_STATE.ITEM_LOST_ALARM ∧
      (runReports (sixLow 4 ++ [(4, 0x10), (4, 0x10)]) initState).alarm_sounding = 1 :=
  ⟨by decide, (C15_low_samples_scenario 4 (by decide)).2.1.2.2.1,
    (C15_low_samples_scenario 4 (by decide)).2.2.2⟩

set_option maxRecDepth 8192 in
/-- C16: from the `structInit` start state, six samples 0x10 followed by six samples 0x90 of
the same device, no other device reporting, end with `LQI_average = 0x90`, that device
CONNECTED (`ALL_ITEMS_CONNECTED`) and `alarm_sounding = 0`. -/
theorem C16_low_then_high_scenario (r : Nat) (hr : r < NUM_DEVICES) :
    ((runReports (sixLowSixHigh r) initState).dev r).LQI_average = 0x90 ∧
      ((runReports (sixLowSixHigh r) initState).dev r).track_state =
        TRACK_STATE.ALL_ITEMS_CONNECTED ∧
      (runReports (sixLowSixHigh r) initState).alarm_sounding = 0 := by
  interval_cases r <;> decide

/-- C16 for device 0. -/
theorem C16_low_then_high_scenario_witness :
    0 < NUM_DEVICES ∧
      ((runReports (sixLowSixHigh 0) initState).dev 0).LQI_average = 0x90 ∧
      ((runReports (sixLowSixHigh 0) initState).dev 0).track_state =
        TRACK_STATE.ALL_ITEMS_CONNECTED ∧
      (runReports (sixLowSixHigh 0) initState).alarm_sounding = 0 :=
  ⟨by decide, C16_low_then_high_scenario 0 (by decide)⟩

/-- C17: a `trackingStateMachine` step on a device that is CONNECTED leaves it CONNECTED
whenever its `LQI_initialized` flag is not 1 once the sample has been recorded, whatever
`LQI_average` is; and in every state reachable from the `structInit` start state a device
whose `LQI_initialized` is 0 is CONNECTED. -/
theorem C17_not_lost_before_initialized (g : Globals) (r : Nat)
    (hlen : g.routers.length = NUM_DEVICES) (hr : r < NUM_DEVICES) :
    ((g.dev r).track_state = TRACK_STATE.ALL_ITEMS_CONNECTED →
        ((trackingStateMachine r g).dev r).LQI_initialized ≠ 1 →
        ((trackingStateMachine r g).dev r).track_state = TRACK_STATE.ALL_ITEMS_CONNECTED) ∧
      (Reachable g → (g.dev r).LQI_initialized = 0 →
        (g.dev r).track_state = TRACK_STATE.ALL_ITEMS_CONNECTED) := by
  constructor
  · intro hc hn
    rw [dev_tracking_same r g (by rw [hlen]; exact hr)] at hn ⊢
    unfold trackDevice at hn ⊢
    split_ifs at hn ⊢ with hl
    · rw [switchDevice_initialized] at hn
      rw [switchDevice_connected_uninit _
        (by rw [updateRunningAverage_track_state]; exact hc) hn,
        updateRunningAverage_track_state]
      exact hc
    · exact hc
  · intro hg h0
    exact (reachable_trackInv g hg r hr).2 (by rw [h0]; decide)

/-- C17 on the sixth low sample of device 0: the average 0x10 is far below the threshold,
the flag is still 0 after the step, and the device stays CONNECTED. -/
theorem C17_not_lost_before_initialized_witness :
    (storeLQI 0 0x10 (runReports (List.replicate 5 (0, 0x10)) initState)).routers.length =
        NUM_DEVICES ∧
      0 < NUM_DEVICES ∧
      ((trackingStateMachine 0
        (storeLQI 0 0x10 (runReports (List.replicate 5 (0, 0x10)) initState))).dev
          0).LQI_average = 0x10 ∧
      ((trackingStateMachine 0
        (storeLQI 0 0x10 (runReports (List.replicate 5 (0, 0x10)) initState))).dev
          0).track_state = TRACK_STATE.ALL_ITEMS_CONNECTED :=
  ⟨by decide, by decide, by decide,
    (C17_not_lost_before_initialized
      (storeLQI 0 0x10 (runReports (List.replicate 5 (0, 0x10)) initState)) 0
      (by decide) (by decide)).1 (by decide) (by decide)⟩

/-- C18 as stated fails: in `monitoringOff` (reached from the start state of `main` by the
start-up pass, the display pass and a long button press) monitoring is disabled; an IDLE
pass with a message waiting leaves the message-waiting flag set, and its result does not
depend on the message, which is never fetched. -/
theorem C18_message_not_drained_counterexample :
    runPasses [envQuiet, envQuiet] mainInit = some idleOnline ∧
      monitoringOff.state = STATE.STATE_IDLE ∧ monitoringOff.coordinator_on = 0 ∧
      (stateMachine (envMessage msgSlot0) monitoringOff).map
          (fun g => g.stateFlags &&& STATE_FLAG_MESSAGE_WAITING) = some 1 ∧
      stateMachine (envMessage msgSlot0) monitoringOff =
        stateMachine (envMessage msgStranger) monitoringOff := by
  decide

/-- C18 amended: with monitoring disabled (`coordinator_on = 0`) an IDLE pass of
`stateMachine` does not fetch a waiting message: `parseMessages` is not called (the pass is
the module poll followed by the button handling, and its result is the same for every
message), the message-waiting flag keeps the value the poll gave it (1 when the module
signals a message), and no device record, nor `current_router_index`, nor `alarm_sounding`
changes; `alarm_silenced` is unchanged too when no button event is pending. -/
theorem C18_disabled_pass_skips_message (g : Globals) (e : Env)
    (hs : g.state = STATE.STATE_IDLE) (hc : g.coordinator_on = 0) :
    stateMachine e g = some (handleButtonEvent e (pollModule e g)) ∧
      (∀ m : Message, stateMachine { e with message := m } g = stateMachine e g) ∧
      ∃ g1, stateMachine e g = some g1 ∧
        g1.stateFlags &&& STATE_FLAG_MESSAGE_WAITING =
          (pollModule e g).stateFlags &&& STATE_FLAG_MESSAGE_WAITING ∧
        (g.zigbeeNetworkStatus = NWK_ONLINE → e.moduleHasMessageWaiting = true →
          g1.stateFlags &&& STATE_FLAG_MESSAGE_WAITING = 1) ∧
        g1.routers = g.routers ∧ g1.current_router_index = g.current_router_index ∧
        g1.alarm_sounding = g.alarm_sounding ∧
        (g.stateFlags &&& STATE_FLAG_BUTTON_PRESSED = 0 →
          g1.alarm_silenced = g.alarm_silenced) := by
  have key : ∀ e : Env, stateMachine e g = some (handleButtonEvent e (pollModule e g)) :=
    fun e => stateMachine_disabled e g hs hc
  obtain ⟨f1, f2, f3, f4, f5⟩ := pollModule_frame e g
  obtain ⟨b1, b2, b3, b4, b5⟩ := handleButtonEvent_frame e (pollModule e g)
  refine ⟨key e, fun m => ?_, _, key e, b4, fun hon hw => ?_, b1.trans f1, b2.trans f2,
    b3.trans f3, fun hb => ?_⟩
  · rw [key, key]
    rfl
  · rw [b4]
    unfold pollModule
    rw [if_pos hon, if_pos hw]
    exact poll_raises_message _
  · rw [b5 (by rw [f5]; exact hb)]
    exact f4

/-- C18 amended, on `monitoringOff` with a message from the device of slot 0 waiting. -/
theorem C18_disabled_pass_skips_message_witness :
    monitoringOff.state = STATE.STATE_IDLE ∧ monitoringOff.coordinator_on = 0 ∧
      stateMachine (envMessage msgSlot0) monitoringOff =
        some (handleButtonEvent (envMessage msgSlot0)
          (pollModule (envMessage msgSlot0) monitoringOff)) :=
  ⟨by decide, by decide,
    (C18_disabled_pass_skips_message monitoringOff (envMessage msgSlot0) (by decide)
      (by decide)).1⟩

/-- C19: in every state reachable from the `structInit` start state by address assignments,
LQI stores, `trackingStateMachine` steps and button actions, every device's `track_state` is
`ALL_ITEMS_CONNECTED` or `ITEM_LOST_ALARM`, never `SUSPECTED_ITEM_LOSS` or
`ITEM_LOST_SILENCED`. -/
theorem C19_two_track_states (g : Globals) (h : Reachable g) (i : Nat)
    (hi : i < NUM_DEVICES) :
    ((g.dev i).track_state = TRACK_STATE.ALL_ITEMS_CONNECTED ∨
        (g.dev i).track_state = TRACK_STATE.ITEM_LOST_ALARM) ∧
      (g.dev i).track_state ≠ TRACK_STATE.SUSPECTED_ITEM_LOSS ∧
      (g.dev i).track_state ≠ TRACK_STATE.ITEM_LOST_SILENCED := by
  have h1 := (reachable_trackInv g h i hi).1
  refine ⟨h1, ?_, ?_⟩ <;> rcases h1 with h2 | h2 <;> rw [h2] <;> decide

/-- C19 on `silencedAlarm`, where device 0 is LOST and the alarm has been silenced. -/
theorem C19_two_track_states_witness :
    Reachable silencedAlarm ∧ 0 < NUM_DEVICES ∧
      ((silencedAlarm.dev 0).track_state = TRACK_STATE.ALL_ITEMS_CONNECTED ∨
        (silencedAlarm.dev 0).track_state = TRACK_STATE.ITEM_LOST_ALARM) ∧
      (silencedAlarm.dev 0).track_state ≠ TRACK_STATE.SUSPECTED_ITEM_LOSS ∧
      (silencedAlarm.dev 0).track_state ≠ TRACK_STATE.ITEM_LOST_SILENCED :=
  ⟨Reachable.press _ (reachable_runReports _ _ Reachable.init (by decide)), by decide,
    C19_two_track_states silencedAlarm
      (Reachable.press _ (reachable_runReports _ _ Reachable.init (by decide))) 0
      (by decide)⟩

/-- C20: from the `structInit` start state, while at most six samples have been accepted for
device `r` (in particular after `k` samples with 1 ≤ k ≤ 6), `LQI_total` is the sum of these
samples and `LQI_average` is that sum divided by 6: the divisor is 6 from the first sample
on and the slots not yet written count as zero. -/
theorem C20_warm_up_average (r : Nat) (hr : r < NUM_DEVICES) (evs : List (Nat × Nat))
    (hev : ∀ e ∈ evs, e.1 < NUM_DEVICES ∧ e.2 ≤ 255)
    (hk : (accepted r evs).length ≤ 6) :
    ((runReports evs initState).dev r).LQI_total = (accepted r evs).sum ∧
      ((runReports evs initState).dev r).LQI_average = (accepted r evs).sum / 6 := by
  have h := runReports_feedInv r hr evs hev
  rw [← lastSix_warm_sum _ hk]
  exact ⟨h.total, h.avg⟩

/-- C20 on `warmRun`: device 2 has the three samples 10, 20, 30 and the average 60 / 6. -/
theorem C20_warm_up_average_witness :
    2 < NUM_DEVICES ∧ (∀ e ∈ warmRun, e.1 < NUM_DEVICES ∧ e.2 ≤ 255) ∧
      (accepted 2 warmRun).length = 3 ∧ (accepted 2 warmRun).sum = 60 ∧
      ((runReports warmRun initState).dev 2).LQI_total = (accepted 2 warmRun).sum ∧
      ((runReports warmRun initState).dev 2).LQI_average = (accepted 2 warmRun).sum / 6 :=
  ⟨by decide, by decide, by decide, by decide,
    C20_warm_up_average 2 (by decide) warmRun (by decide) (by decide)⟩

/-- C21: in every state reachable from the `structInit` start state, for every device
`LQI_iter` is at most 6, the index that `trackingStateMachine` uses for the buffer is 0
when `LQI_iter` is 6, the buffer has six entries and the write of the step goes to that
index, and every index with which a `trackingStateMachine` call reads or writes
`LQI_running_average` is strictly below 6. -/
theorem C21_buffer_indices_below_six (g : Globals) (h : Reachable g) (k : Nat)
    (hk : k < NUM_DEVICES) :
    (g.dev k).LQI_iter ≤ LQI_NUM_SAMPLES ∧
      ((g.dev k).LQI_iter = LQI_NUM_SAMPLES → bufferIndex (g.dev k) = 0) ∧
      (g.dev k).LQI_running_average.length = LQI_NUM_SAMPLES ∧
      (updateRunningAverage (g.dev k)).LQI_running_average =
        (g.dev k).LQI_running_average.set (bufferIndex (g.dev k)) (g.dev k).LQI ∧
      ∀ idx ∈ bufferAccesses k g, idx < LQI_NUM_SAMPLES := by
  have hd := (reachable_tableInv g h).2 k hk
  refine ⟨hd.iter, fun h6 => ?_, hd.len, updateRunningAverage_buffer _,
    bufferAccesses_lt k g hd⟩
  unfold bufferIndex
  rw [if_pos h6]

/-- C21 on `lowSeventh`, where the cursor of device 0 stands at 6 and a sample is waiting:
the step uses index 0. -/
theorem C21_buffer_indices_below_six_witness :
    Reachable lowSeventh ∧ 0 < NUM_DEVICES ∧ (lowSeventh.dev 0).LQI_iter = 6 ∧
      bufferIndex (lowSeventh.dev 0) = 0 ∧
      ∀ idx ∈ bufferAccesses 0 lowSeventh, idx < LQI_NUM_SAMPLES :=
  have hr : Reachable lowSeventh :=
    Reachable.lqi _ 0 0x10 (reachable_runReports _ _ Reachable.init (by decide)) (by decide)
      (by decide)
  have h := C21_buffer_indices_below_six lowSeventh hr 0 (by decide)
  ⟨hr, by decide, by decide, h.2.1 (by decide), h.2.2.2.2⟩

/-- C22: in every state reachable from the `structInit` start state, for every device
`LQI_total` is at most 6 * 255 = 1530, so adding the new byte stays below 2^16; the byte
evicted from the buffer is at most `LQI_total`, so the subtraction does not go below 0;
`LQI_total / 6` is at most 255, so it fits `LQI_average`; and the buffer update computed
with 16-bit and 8-bit wrap-around equals the one computed in plain arithmetic. -/
theorem C22_arithmetic_never_wraps (g : Globals) (h : Reachable g) (i : Nat)
    (hi : i < NUM_DEVICES) :
    (g.dev i).LQI_total ≤ 6 * 255 ∧
      (g.dev i).LQI_total + (g.dev i).LQI < 65536 ∧
      evicted (g.dev i) ≤ (g.dev i).LQI_total ∧
      (g.dev i).LQI_total / LQI_NUM_SAMPLES ≤ 255 ∧
      updateRunningAverage (g.dev i) = updateRunningAverage_exact (g.dev i) := by
  obtain ⟨h1, h2, h3, h4, h5⟩ := devInv_nowrap _ ((reachable_tableInv g h).2 i hi)
  exact ⟨h1, h3, h2, h4, h5⟩

/-- C22 on `recovering`, where the buffer of device 0 is full and the byte 0xFF is about to
replace a 0x10. -/
theorem C22_arithmetic_never_wraps_witness :
    Reachable recovering ∧ 0 < NUM_DEVICES ∧
      (recovering.dev 0).LQI_total ≤ 6 * 255 ∧
      evicted (recovering.dev 0) ≤ (recovering.dev 0).LQI_total ∧
      updateRunningAverage (recovering.dev 0) = updateRunningAverage_exact (recovering.dev 0) :=
  have hr : Reachable recovering :=
    Reachable.lqi _ 0 0xFF
      (Reachable.track _ 0
        (Reachable.lqi _ 0 0xFF
          (Reachable.press _ (reachable_runReports _ _ Reachable.init (by decide)))
          (by decide) (by decide))
        (by decide))
      (by decide) (by decide)
  have h := C22_arithmetic_never_wraps recovering hr 0 (by decide)
  ⟨hr, by decide, h.1, h.2.2.1, h.2.2.2.2⟩

/-- C23, the code at the failing input: run at program start, `structInit` makes sixteen
stores outside the array bounds, the eight stores to `routers[8].MAC_address[8]` and the
eight to `routers[9].MAC_address[9]`; all its other stores are within bounds. In the start
state every MAC byte is 0, but `structInit` itself clears only byte `i` of record `i`: run
on the registry of `main` it leaves the other address bytes of slots 0 and 1 in place. -/
theorem C23_structInit_stores_past_mac_address :
    structInit_stores.filter (fun s => !s.inBounds) =
        List.replicate 8 (Store.mac 8 8) ++ List.replicate 8 (Store.mac 9 9) ∧
      (∀ i, i < NUM_DEVICES → ∀ j, j < 8 → (initState.dev i).MAC_address.getD j 0 = 0) ∧
      ((structInit mainInit).dev 0).MAC_address =
        [0, 0xD2, 0x5D, 0x02, 0x00, 0x4B, 0x12, 0x00] ∧
      ((structInit mainInit).dev 1).MAC_address =
        [0xD3, 0, 0x5D, 0x02, 0x00, 0x4B, 0x12, 0x00] := by
  decide

end Coordinator
